import Mathlib

/-!
# Eyedea-MMR: explicit linking shim and example driver

A shallow embedding of

* `examples/edf-explink/edf-explink.cpp` (`linkEyedentify`, `unlinkEyedentify`,
  the macro `EDF_LOAD_SHLIB_FCN_BODY`),
* `sdk/include/edf_type.h` (`struct EdfAPI`, `EDF_SHLIB_NAME`),
* `examples/example-mmr-API/example-mmr-API.cpp` (model tables, `check_arg`,
  `parse_arguments`, `loadImage`, the macro `EARLY_EXIT` and `main`).

Pointers are natural numbers, `0` being the null pointer.  A nullable pointer argument
is an `Option`: `none` is the null pointer, `some v` a pointer to an object holding `v`.
The operating system (file system and dynamic loader) is a record of pure functions,
and every call made to it is written to a trace.
-/

namespace EyedeaMMR

/-! ## `struct EdfAPI` (edf_type.h, lines 251-283) -/

/-- The record of callable handles: the library handle followed by the 28
function-pointer fields, in declaration order. -/
structure EdfAPI where
  shlib_handle : Nat
  edfInitEyedentify : Nat
  edfInitEyedentify_ExternalInference : Nat
  edfFreeEyedentify : Nat
  edfComputeDesc : Nat
  edfCompareDescs : Nat
  edfAllocDesc : Nat
  edfFreeDesc : Nat
  edfCropParamsAllocate : Nat
  edfCropParamsWrap : Nat
  edfCropParamsFree : Nat
  edfCropImage : Nat
  edfFreeCropImage : Nat
  edfModelVersion : Nat
  edfClassify : Nat
  edfFreeClassifyResult : Nat
  erImageGetDataTypeSize : Nat
  erImageGetColorModelNumChannels : Nat
  erImageGetPixelDepth : Nat
  erImageAllocateBlank : Nat
  erImageAllocate : Nat
  erImageAllocateAndWrap : Nat
  erImageCopy : Nat
  erImageRead : Nat
  erImageWrite : Nat
  erImageFree : Nat
  erVersion : Nat
  erGetErrorLog : Nat
  erResetErrorLog : Nat
deriving DecidableEq, Repr

/-- The names of the 28 function-pointer fields of `EdfAPI`. -/
inductive Field where
  | edfInitEyedentify
  | edfInitEyedentify_ExternalInference
  | edfFreeEyedentify
  | edfComputeDesc
  | edfCompareDescs
  | edfAllocDesc
  | edfFreeDesc
  | edfCropParamsAllocate
  | edfCropParamsWrap
  | edfCropParamsFree
  | edfCropImage
  | edfFreeCropImage
  | edfModelVersion
  | edfClassify
  | edfFreeClassifyResult
  | erImageGetDataTypeSize
  | erImageGetColorModelNumChannels
  | erImageGetPixelDepth
  | erImageAllocateBlank
  | erImageAllocate
  | erImageAllocateAndWrap
  | erImageCopy
  | erImageRead
  | erImageWrite
  | erImageFree
  | erVersion
  | erGetErrorLog
  | erResetErrorLog
deriving DecidableEq, Repr

/-- The identifier of a field, as written in `struct EdfAPI`. -/
def Field.ident : Field → String
  | .edfInitEyedentify => "edfInitEyedentify"
  | .edfInitEyedentify_ExternalInference => "edfInitEyedentify_ExternalInference"
  | .edfFreeEyedentify => "edfFreeEyedentify"
  | .edfComputeDesc => "edfComputeDesc"
  | .edfCompareDescs => "edfCompareDescs"
  | .edfAllocDesc => "edfAllocDesc"
  | .edfFreeDesc => "edfFreeDesc"
  | .edfCropParamsAllocate => "edfCropParamsAllocate"
  | .edfCropParamsWrap => "edfCropParamsWrap"
  | .edfCropParamsFree => "edfCropParamsFree"
  | .edfCropImage => "edfCropImage"
  | .edfFreeCropImage => "edfFreeCropImage"
  | .edfModelVersion => "edfModelVersion"
  | .edfClassify => "edfClassify"
  | .edfFreeClassifyResult => "edfFreeClassifyResult"
  | .erImageGetDataTypeSize => "erImageGetDataTypeSize"
  | .erImageGetColorModelNumChannels => "erImageGetColorModelNumChannels"
  | .erImageGetPixelDepth => "erImageGetPixelDepth"
  | .erImageAllocateBlank => "erImageAllocateBlank"
  | .erImageAllocate => "erImageAllocate"
  | .erImageAllocateAndWrap => "erImageAllocateAndWrap"
  | .erImageCopy => "erImageCopy"
  | .erImageRead => "erImageRead"
  | .erImageWrite => "erImageWrite"
  | .erImageFree => "erImageFree"
  | .erVersion => "erVersion"
  | .erGetErrorLog => "erGetErrorLog"
  | .erResetErrorLog => "erResetErrorLog"

/-- All 28 function-pointer fields, in declaration order. -/
def Field.all : List Field :=
  [.edfInitEyedentify, .edfInitEyedentify_ExternalInference, .edfFreeEyedentify,
   .edfComputeDesc, .edfCompareDescs, .edfAllocDesc, .edfFreeDesc,
   .edfCropParamsAllocate, .edfCropParamsWrap, .edfCropParamsFree, .edfCropImage,
   .edfFreeCropImage, .edfModelVersion, .edfClassify, .edfFreeClassifyResult,
   .erImageGetDataTypeSize, .erImageGetColorModelNumChannels, .erImageGetPixelDepth,
   .erImageAllocateBlank, .erImageAllocate, .erImageAllocateAndWrap, .erImageCopy,
   .erImageRead, .erImageWrite, .erImageFree, .erVersion, .erGetErrorLog,
   .erResetErrorLog]

/-- Read `state->f`. -/
def EdfAPI.get (s : EdfAPI) : Field → Nat
  | .edfInitEyedentify => s.edfInitEyedentify
  | .edfInitEyedentify_ExternalInference => s.edfInitEyedentify_ExternalInference
  | .edfFreeEyedentify => s.edfFreeEyedentify
  | .edfComputeDesc => s.edfComputeDesc
  | .edfCompareDescs => s.edfCompareDescs
  | .edfAllocDesc => s.edfAllocDesc
  | .edfFreeDesc => s.edfFreeDesc
  | .edfCropParamsAllocate => s.edfCropParamsAllocate
  | .edfCropParamsWrap => s.edfCropParamsWrap
  | .edfCropParamsFree => s.edfCropParamsFree
  | .edfCropImage => s.edfCropImage
  | .edfFreeCropImage => s.edfFreeCropImage
  | .edfModelVersion => s.edfModelVersion
  | .edfClassify => s.edfClassify
  | .edfFreeClassifyResult => s.edfFreeClassifyResult
  | .erImageGetDataTypeSize => s.erImageGetDataTypeSize
  | .erImageGetColorModelNumChannels => s.erImageGetColorModelNumChannels
  | .erImageGetPixelDepth => s.erImageGetPixelDepth
  | .erImageAllocateBlank => s.erImageAllocateBlank
  | .erImageAllocate => s.erImageAllocate
  | .erImageAllocateAndWrap => s.erImageAllocateAndWrap
  | .erImageCopy => s.erImageCopy
  | .erImageRead => s.erImageRead
  | .erImageWrite => s.erImageWrite
  | .erImageFree => s.erImageFree
  | .erVersion => s.erVersion
  | .erGetErrorLog => s.erGetErrorLog
  | .erResetErrorLog => s.erResetErrorLog

/-- Assign `state->f = p`. -/
def EdfAPI.set (s : EdfAPI) (f : Field) (p : Nat) : EdfAPI :=
  match f with
  | .edfInitEyedentify => { s with edfInitEyedentify := p }
  | .edfInitEyedentify_ExternalInference => { s with edfInitEyedentify_ExternalInference := p }
  | .edfFreeEyedentify => { s with edfFreeEyedentify := p }
  | .edfComputeDesc => { s with edfComputeDesc := p }
  | .edfCompareDescs => { s with edfCompareDescs := p }
  | .edfAllocDesc => { s with edfAllocDesc := p }
  | .edfFreeDesc => { s with edfFreeDesc := p }
  | .edfCropParamsAllocate => { s with edfCropParamsAllocate := p }
  | .edfCropParamsWrap => { s with edfCropParamsWrap := p }
  | .edfCropParamsFree => { s with edfCropParamsFree := p }
  | .edfCropImage => { s with edfCropImage := p }
  | .edfFreeCropImage => { s with edfFreeCropImage := p }
  | .edfModelVersion => { s with edfModelVersion := p }
  | .edfClassify => { s with edfClassify := p }
  | .edfFreeClassifyResult => { s with edfFreeClassifyResult := p }
  | .erImageGetDataTypeSize => { s with erImageGetDataTypeSize := p }
  | .erImageGetColorModelNumChannels => { s with erImageGetColorModelNumChannels := p }
  | .erImageGetPixelDepth => { s with erImageGetPixelDepth := p }
  | .erImageAllocateBlank => { s with erImageAllocateBlank := p }
  | .erImageAllocate => { s with erImageAllocate := p }
  | .erImageAllocateAndWrap => { s with erImageAllocateAndWrap := p }
  | .erImageCopy => { s with erImageCopy := p }
  | .erImageRead => { s with erImageRead := p }
  | .erImageWrite => { s with erImageWrite := p }
  | .erImageFree => { s with erImageFree := p }
  | .erVersion => { s with erVersion := p }
  | .erGetErrorLog => { s with erGetErrorLog := p }
  | .erResetErrorLog => { s with erResetErrorLog := p }

/-- The contents left by `memset(edf_api_state, 0, sizeof(EdfAPI))`. -/
def EdfAPI.zero : EdfAPI :=
  ⟨0, 0, 0, 0, 0, 0, 0, 0, 0, 0, 0, 0, 0, 0, 0, 0, 0, 0, 0, 0, 0, 0, 0, 0, 0, 0, 0, 0, 0⟩

/-! ## The operating system -/

/-- The file system, the dynamic loader and the library-name constant.
`er_explink.h`, which defines `ER_OPEN_SHLIB`, `ER_LOAD_SHFCN`, `ER_FREE_LIB`,
`ER_LIB_PREFIX`, `ER_LIB_TARGET` and `ER_LIB_EXT`, is not part of the sources,
so what these macros compute is a parameter:

* `fopen path` tells whether `fopen(path, "rb")` yields a non-null `FILE*`,
* `openShlib path` is the handle `ER_OPEN_SHLIB` stores (`0` when loading fails),
* `loadShfcn h name` is the address `ER_LOAD_SHFCN` stores for the symbol `name`
  of the library `h` (`0` when the symbol is not found),
* `EDF_SHLIB_NAME` is the file name of the shared library.

`ER_FREE_LIB(h)` closes the library `h`; it is recorded in the trace. -/
structure Loader where
  fopen : String → Bool
  openShlib : String → Nat
  loadShfcn : Nat → String → Nat
  EDF_SHLIB_NAME : String

/-- A call made to the operating system, or a message written to the console. -/
inductive Op where
  | fopen (path : String)
  | fclose
  | openShlib (path : String)
  | loadShfcn (handle : Nat) (name : String)
  | freeLib (handle : Nat)
  | logErr (msg : String)
deriving DecidableEq, Repr

/-- How a call of a routine ends: it returns an `int`, or a `std::out_of_range`
exception leaves it. -/
inductive Outcome where
  | returned (code : Int)
  | threw_out_of_range
deriving DecidableEq, Repr

/-- What a call leaves behind: how it ended, the contents of `*edf_api_state`
afterwards (`none` when the pointer is null) and the calls it made, in order. -/
structure Run where
  outcome : Outcome
  state : Option EdfAPI
  trace : List Op
deriving DecidableEq, Repr

/-! ## `linkEyedentify` (edf-explink.cpp, lines 28-108) -/

/-- Line 43: `std::replace(sdkPath.begin(), sdkPath.end(), '\\', '/')`. -/
def replaceBackslash (s : String) : String :=
  ⟨s.data.map fun c => if c = '\\' then '/' else c⟩

/-- Lines 42-46: the SDK folder with `/` separators and a closing `/`.
`sdkPath.at(sdkPath.length()-1)` throws `std::out_of_range` on the empty
string (`none`). -/
def normalizeSdkPath (sdk_path : String) : Option String :=
  let sdkPath := replaceBackslash sdk_path
  match sdkPath.data.getLast? with
  | none => none
  | some c => if c ≠ '/' then some (sdkPath ++ "/") else some sdkPath

/-- Line 47: `shlibPath = sdkPath + "lib/" + std::string(EDF_SHLIB_NAME)`. -/
def shlibPath (L : Loader) (sdk_path : String) : Option String :=
  (normalizeSdkPath sdk_path).map fun sdkPath => sdkPath ++ "lib/" ++ L.EDF_SHLIB_NAME

/-- One use of the macro `EDF_LOAD_SHLIB_FCN_BODY(fcn_ptr, fcn_type, fcn_name, state, err_code)`
(lines 28-35): look the symbol up, store the address in the field, and when the
address is null close the library, print, and return `err_code` (`some err_code`);
`none` means control falls through to the next statement. -/
def EDF_LOAD_SHLIB_FCN_BODY (L : Loader) (fcn_ptr : Field) (fcn_name : String)
    (err_code : Int) (state : EdfAPI) : EdfAPI × List Op × Option Int :=
  let p := L.loadShfcn state.shlib_handle fcn_name
  let state1 := state.set fcn_ptr p
  if p = 0 then
    (state1,
     [Op.loadShfcn state.shlib_handle fcn_name, Op.freeLib state1.shlib_handle,
      Op.logErr ("function " ++ fcn_name ++ "() not linked")],
     some err_code)
  else
    (state1, [Op.loadShfcn state.shlib_handle fcn_name], none)

/-- Lines 80-105: the 25 uses of the macro, in order, each with the field it
fills, the symbol name it looks up and the code it returns on failure. -/
def linkTable : List (Field × String × Int) :=
  [(.edfInitEyedentify, "edfInitEyedentify", -4),
   (.edfFreeEyedentify, "edfFreeEyedentify", -5),
   (.edfComputeDesc, "edfComputeDesc", -6),
   (.edfCompareDescs, "edfCompareDescs", -7),
   (.edfAllocDesc, "edfAllocDesc", -8),
   (.edfFreeDesc, "edfFreeDesc", -9),
   (.edfCropParamsAllocate, "edfCropParamsAllocate", -10),
   (.edfCropParamsWrap, "edfCropParamsWrap", -11),
   (.edfCropParamsFree, "edfCropParamsFree", -12),
   (.edfCropImage, "edfCropImage", -13),
   (.edfFreeCropImage, "edfFreeCropImage", -14),
   (.edfModelVersion, "edfModelVersion", -15),
   (.edfClassify, "edfClassify", -16),
   (.edfFreeClassifyResult, "edfFreeClassifyResult", -17),
   (.erImageGetDataTypeSize, "erImageGetDataTypeSize", -18),
   (.erImageGetColorModelNumChannels, "erImageGetColorModelNumChannels", -19),
   (.erImageGetPixelDepth, "erImageAllocateBlank", -20),
   (.erImageAllocateBlank, "erImageAllocateBlank", -21),
   (.erImageAllocate, "erImageAllocate", -22),
   (.erImageAllocateAndWrap, "erImageAllocateAndWrap", -23),
   (.erImageCopy, "erImageCopy", -24),
   (.erImageRead, "erImageRead", -25),
   (.erImageWrite, "erImageWrite", -26),
   (.erImageFree, "erImageFree", -27),
   (.erVersion, "erVersion", -28)]

/-- The macro uses of a table run one after the other; the first one that
returns ends the routine, and falling off the end reaches `return 0` (line 107). -/
def linkFunctions (L : Loader) : List (Field × String × Int) → EdfAPI → EdfAPI × List Op × Int
  | [], state => (state, [], 0)
  | (fcn_ptr, fcn_name, err_code) :: rest, state =>
    match EDF_LOAD_SHLIB_FCN_BODY L fcn_ptr fcn_name err_code state with
    | (state1, ops, some code) => (state1, ops, code)
    | (state1, ops, none) =>
      let r := linkFunctions L rest state1
      (r.1, ops ++ r.2.1, r.2.2)

/-- The routine `int linkEyedentify(const char* sdk_path, EdfAPI* edf_api_state)`. -/
def linkEyedentify (L : Loader) (sdk_path : Option String) (edf_api_state : Option EdfAPI) : Run :=
  match sdk_path, edf_api_state with
  | none, st => ⟨.returned (-1), st, []⟩
  | some _, none => ⟨.returned (-1), none, []⟩
  | some sdk, some st =>
    match shlibPath L sdk with
    | none => ⟨.threw_out_of_range, some st, []⟩
    | some path =>
      -- memset(edf_api_state, 0, sizeof(EdfAPI))
      let st0 := EdfAPI.zero
      if L.fopen path = false then
        ⟨.returned (-2), some st0,
          [Op.fopen path, Op.logErr ("Library file " ++ path ++ " does not exist...")]⟩
      else
        let shlib_handle := L.openShlib path
        if shlib_handle = 0 then
          ⟨.returned (-3), some st0,
            [Op.fopen path, Op.fclose, Op.openShlib path,
             Op.logErr ("Library file " ++ path ++ " could not be loaded...")]⟩
        else
          let st1 := { st0 with shlib_handle := shlib_handle }
          let r := linkFunctions L linkTable st1
          ⟨.returned r.2.2, some r.1, [Op.fopen path, Op.fclose, Op.openShlib path] ++ r.2.1⟩

/-! ## `unlinkEyedentify` (edf-explink.cpp, lines 110-120) -/

/-- The routine `int unlinkEyedentify(EdfAPI* edf_api_state)`. -/
def unlinkEyedentify (edf_api_state : Option EdfAPI) : Run :=
  match edf_api_state with
  | some st => ⟨.returned 0, some EdfAPI.zero, [Op.freeLib st.shlib_handle]⟩
  | none => ⟨.returned (-1), none, []⟩

/-! ## Test fixtures -/

/-- The names a complete Eyedentify library exports: one per field of `EdfAPI`. -/
def fullExports : List String := Field.all.map Field.ident

/-- A loader for a library that exports exactly the given names: every file
opens, the library loads with handle `7`, and the `i`-th exported symbol lives
at address `100 + i`. -/
def loaderExporting (exports : List String) : Loader where
  fopen := fun _ => true
  openShlib := fun _ => 7
  loadShfcn := fun _ name =>
    match exports.indexOf? name with
    | some i => 100 + i
    | none => 0
  EDF_SHLIB_NAME := "libeyedentify.so"

/-! ## Observations on traces and tables -/

/-- The names of the symbols a trace looks up, in order. -/
def lookups : List Op → List String
  | [] => []
  | Op.loadShfcn _ name :: rest => name :: lookups rest
  | _ :: rest => lookups rest

/-- The symbol names `linkEyedentify` looks up, in order. -/
def linkSymbols : List String := linkTable.map fun r => r.2.1

/-- The contents after every row of a table has stored the address of its symbol. -/
def filled (L : Loader) (h : Nat) : List (Field × String × Int) → EdfAPI → EdfAPI
  | [], s => s
  | r :: rest, s => filled L h rest (s.set r.1 (L.loadShfcn h r.2.1))

/-- Line 41: `enum MMRTask { VCMMGVCT=0, VCMMCT=1, VCMCT=2, VCCT=3 }`. -/
inductive MMRTask where
  | VCMMGVCT
  | VCMMCT
  | VCMCT
  | VCCT
deriving DecidableEq, Repr

/-- The integer value of an `MMRTask` enumerator. -/
def MMRTask.val : MMRTask → Nat
  | .VCMMGVCT => 0
  | .VCMMCT => 1
  | .VCMCT => 2
  | .VCCT => 3

/-- The identifier of an `MMRTask` enumerator. -/
def MMRTask.ident : MMRTask → String
  | .VCMMGVCT => "VCMMGVCT"
  | .VCMMCT => "VCMMCT"
  | .VCMCT => "VCMCT"
  | .VCCT => "VCCT"

/-- Line 42: `enum MMRType { LP = 0, CARBOX = 1 }`. -/
inductive MMRType where
  | LP
  | CARBOX
deriving DecidableEq, Repr

/-- The integer value of an `MMRType` enumerator. -/
def MMRType.val : MMRType → Nat
  | .LP => 0
  | .CARBOX => 1

/-- Lines 43-50: the table of fast models. -/
def MMR_FAST_MODELS : List String :=
  ["MMR_VCMMGVCT_FAST_2024Q2.dat",
   "MMRBOX_VCMMGVCT_FAST_2024Q2.dat",
   "MMR_VCMMCT_FAST_2024Q2.dat",
   "MMRBOX_VCMMCT_FAST_2024Q2.dat",
   "MMR_VCMCT_FAST_2024Q2.dat",
   "MMRBOX_VCMCT_FAST_2024Q2.dat",
   "MMR_VCCT_FAST_2024Q2.dat",
   "MMRBOX_VCCT_FAST_2024Q2.dat"]

/-- Lines 52-59: the table of precise models. -/
def MMR_PREC_MODELS : List String :=
  ["MMR_VCMMGVCT_PREC_2024Q2.dat",
   "MMRBOX_VCMMGVCT_PREC_2024Q2.dat",
   "MMR_VCMMCT_PREC_2024Q2.dat",
   "MMRBOX_VCMMCT_PREC_2024Q2.dat",
   "MMR_VCMCT_PREC_2024Q2.dat",
   "MMRBOX_VCMCT_PREC_2024Q2.dat",
   "MMR_VCCT_PREC_2024Q2.dat",
   "MMRBOX_VCCT_PREC_2024Q2.dat"]

/-- Lines 258 and 260: the index `2*option_mmr_task+option_mmr_type`. -/
def modelIndex (option_mmr_task : MMRTask) (option_mmr_type : MMRType) : Nat :=
  2 * option_mmr_task.val + option_mmr_type.val

/-- Lines 256-261 of `main`: the model file chosen; `none` stands for a read
outside the table. -/
def selectModel (option_fast_version : Bool) (option_mmr_task : MMRTask)
    (option_mmr_type : MMRType) : Option String :=
  if option_fast_version then
    MMR_FAST_MODELS[modelIndex option_mmr_task option_mmr_type]?
  else
    MMR_PREC_MODELS[modelIndex option_mmr_task option_mmr_type]?

/-- A loader with a complete library. -/
def fullLoader : Loader := loaderExporting fullExports

/-- A loader whose library lacks the symbol `edfComputeDesc`. -/
def loaderWithoutComputeDesc : Loader := loaderExporting (fullExports.erase "edfComputeDesc")

/-- A loader under which no file can be opened. -/
def loaderMissingFile : Loader := { fullLoader with fopen := fun _ => false }

/-- A loader under which the library file exists but does not load. -/
def loaderNotLoadable : Loader := { fullLoader with openShlib := fun _ => 0 }

/-! ## Command line of `example-mmr-API.cpp` (lines 61-67 and 497-601) -/

/-- Modelled from the spec: the enumeration `ERComputationMode` of the absent
`er_type.h`, with the two enumerators the sources name. -/
inductive ERComputationMode where
  | ER_COMPUTATION_MODE_CPU
  | ER_COMPUTATION_MODE_GPU
deriving DecidableEq, Repr

/-- The option variables of `main` that `parse_arguments` receives by reference. -/
structure Options where
  fast_version : Bool
  mmr_type : MMRType
  mmr_task : MMRTask
  computation_mode : ERComputationMode
  gpu_id : Int
  num_threads : Int
  onnx_provider : String
deriving DecidableEq, Repr

/-- Lines 61-67 and 194-200: the values `main` gives the option variables. -/
def defaultOptions : Options where
  fast_version := true
  mmr_type := MMRType.LP
  mmr_task := MMRTask.VCMMCT
  computation_mode := ERComputationMode.ER_COMPUTATION_MODE_CPU
  gpu_id := 0
  num_threads := 1
  onnx_provider := "cpu"

/-- Lines 497-508, `check_arg(arg, option, retv)`: `some retv` when the routine
returns true, `none` when it returns false.  An option that does not end in `=`
must have the length of the argument; the first `option.length()` characters of
the argument are then compared with the option, and `retv` is what follows them. -/
def check_arg (arg : String) (option : String) : Option String :=
  if option.data.getLast? ≠ some '=' ∧ arg.length ≠ option.length then none
  else if arg.data.take option.length = option.data then
    some ⟨arg.data.drop option.length⟩
  else none

/-- The C library's `isspace` in the "C" locale. -/
def isspace (c : Char) : Bool :=
  c = ' ' || c = '\t' || c = '\n' || c = '\x0b' || c = '\x0c' || c = '\r'

/-- The value of a run of decimal digits. -/
def digitsValue (ds : List Char) : Nat :=
  ds.foldl (fun acc c => 10 * acc + (c.toNat - '0'.toNat)) 0

/-- Conversion of an integer to a 32-bit `int`, wrapping around. -/
def wrapInt32 (v : Int) : Int :=
  (v + 2147483648) % 4294967296 - 2147483648

/-- The C library's `atoi`: skip white space, read an optional sign and the longest
run of decimal digits, and convert the value to `int`.  The C standard leaves the
result undefined when the value does not fit; it is taken to wrap around. -/
def atoi (s : String) : Int :=
  match s.data.dropWhile isspace with
  | '-' :: rest => wrapInt32 (-(digitsValue (rest.takeWhile Char.isDigit) : Int))
  | '+' :: rest => wrapInt32 (digitsValue (rest.takeWhile Char.isDigit))
  | rest => wrapInt32 (digitsValue (rest.takeWhile Char.isDigit))

/-! ## `main` of `example-mmr-API.cpp` (lines 34-35, 75-155 and 174-391) -/

/-- Line 34: the SDK folder. -/
def EDF_SDK_PATH : String := "../../sdk/"

/-- Line 35: the module name. -/
def EDF_MODULE_NAME : String := "edftf2lite"

/-- The structure `EdfInitConfig` of `edf_type.h`, lines 134-141. -/
structure EdfInitConfig where
  module_path : String
  model_file : Option String
  computation_mode : ERComputationMode
  gpu_device_id : Int
  num_threads : Int
  onnx_provider : String
deriving DecidableEq, Repr

/-- Lines 432-442, `setEdfInitConfig`. -/
def setEdfInitConfig (path : String) (name : Option String) (mode : ERComputationMode)
    (gpu_device_id : Int) (num_threads : Int) (onnx_provider : String) : EdfInitConfig where
  module_path := path
  model_file := name
  computation_mode := mode
  gpu_device_id := gpu_device_id
  num_threads := num_threads
  onnx_provider := onnx_provider

/-- Lines 75-82, `struct InputImage`. -/
structure InputImage where
  imageFilename : String
  isImageRawYCbCr420 : Bool
  rawYCbCrWidth : Int
  rawYCbCrHeight : Int
deriving DecidableEq, Repr

/-- Lines 118-155: the images of the array `inputs`.  The positions of the licence
plate and of the car box are floating-point data handed to the library and are
left out. -/
def inputs : List InputImage :=
  [⟨"../../data/images-mmr/car_cz.jpg", false, 0, 0⟩,
   ⟨"../../data/images-mmr/car_cz2.raw", true, 1400, 1050⟩,
   ⟨"../../data/images-mmr/car_cz3.png", false, 0, 0⟩,
   ⟨"../../data/images-mmr/car_cz4.jpg", false, 0, 0⟩,
   ⟨"../../data/images-mmr/car_it.jpg", false, 0, 0⟩,
   ⟨"../../data/images-mmr/car_cz_rear.jpg", false, 0, 0⟩,
   ⟨"../../data/images-mmr/car_cz2_rear.jpg", false, 0, 0⟩]

/-- The closed Eyedentify library and the build, as far as `main` depends on them:

* `EXPLICIT_LINKING` tells whether the program was built with that symbol defined,
* `edfLinkAPI` is the code `edfLinkAPI` returns and `shlib_handle` the handle it
  leaves in the record,
* `edfInitEyedentify config` is the code the initialization returns,
* `rawFileRead i` tells whether the raw file of input `i` opens and is read in full,
* `imageSize i` is the field `size` of the image that `erImageRead` or
  `erImageAllocateAndWrap` leaves for input `i` (0: not loaded),
* `edfCropImage i`, `edfComputeDesc i` and `edfClassify i` are the codes these
  calls return for input `i`. -/
structure Sdk where
  EXPLICIT_LINKING : Bool
  edfLinkAPI : Int
  shlib_handle : Nat
  edfInitEyedentify : EdfInitConfig → Int
  rawFileRead : Nat → Bool
  imageSize : Nat → Nat
  edfCropImage : Nat → Int
  edfComputeDesc : Nat → Int
  edfClassify : Nat → Int

/-- What the example program writes and which calls it makes, in order.  Messages
on `std::cout` and the waits for a key are left out.  A call about the image, the
crop, the descriptor or the result of an input carries the index of that input in
`inputs`; `erImageFree` carries the index of the input whose image the variable
`image` holds, or `none` while it still holds the zeroed structure of line 247. -/
inductive Event where
  | printHelp
  | printUnknownOption (arg : String) (prog : String)
  | cerr (msg : String)
  | openShlib (path : String)
  | loadShfcn (handle : Nat) (name : String)
  | freeLib (handle : Nat)
  | edfLinkAPI (handle : Nat)
  | edfInitEyedentify (config : EdfInitConfig)
  | edfModelVersion
  | erImageRead (input : Nat)
  | erImageAllocateAndWrap (input : Nat)
  | deleteRawData (input : Nat)
  | edfCropParamsAllocate (points : Nat) (values : Nat) (input : Nat)
  | edfCropImage (input : Nat)
  | edfCropParamsFree (input : Nat)
  | erImageFree (image : Option Nat)
  | edfComputeDesc (input : Nat)
  | edfFreeCropImage (input : Nat)
  | edfClassify (input : Nat)
  | edfFreeDesc (input : Nat)
  | printResults (input : Nat)
  | edfFreeClassifyResult (input : Nat)
  | edfFreeEyedentify
deriving DecidableEq, Repr

/-- What a call of `parse_arguments` leaves: the returned code, the flag `help`,
the option variables and what was printed. -/
structure ParseRun where
  code : Int
  help : Bool
  options : Options
  printed : List Event
deriving DecidableEq, Repr

/-- Lines 516-599: the loop body of `parse_arguments`, run over the arguments that
follow `argv[0]`; `prog` is `argv[0]`. -/
def parseLoop (prog : String) : List String → Options → ParseRun
  | [], o => ⟨0, false, o, []⟩
  | arg :: rest, o =>
    if (check_arg arg "-vcmmgvct").isSome || (check_arg arg "-VCMMGVCT").isSome then
      parseLoop prog rest { o with mmr_task := MMRTask.VCMMGVCT }
    else if (check_arg arg "-vcmmct").isSome || (check_arg arg "-VCMMCT").isSome then
      parseLoop prog rest { o with mmr_task := MMRTask.VCMMCT }
    else if (check_arg arg "-vcmct").isSome || (check_arg arg "-VCMCT").isSome then
      parseLoop prog rest { o with mmr_task := MMRTask.VCMCT }
    else if (check_arg arg "-vcct").isSome || (check_arg arg "-VCCT").isSome then
      parseLoop prog rest { o with mmr_task := MMRTask.VCCT }
    else if (check_arg arg "-lp").isSome then
      parseLoop prog rest { o with mmr_type := MMRType.LP }
    else if (check_arg arg "-carbox").isSome then
      parseLoop prog rest { o with mmr_type := MMRType.CARBOX }
    else if (check_arg arg "-fast").isSome then
      parseLoop prog rest { o with fast_version := true }
    else if (check_arg arg "-precise").isSome then
      parseLoop prog rest { o with fast_version := false }
    else if (check_arg arg "-cpu").isSome then
      parseLoop prog rest { o with computation_mode := ERComputationMode.ER_COMPUTATION_MODE_CPU }
    else if let some retv := check_arg arg "-gpu-id=" then
      parseLoop prog rest { o with gpu_id := atoi retv }
    else if (check_arg arg "-gpu").isSome then
      parseLoop prog rest { o with computation_mode := ERComputationMode.ER_COMPUTATION_MODE_GPU }
    else if let some retv := check_arg arg "-threads=" then
      parseLoop prog rest { o with num_threads := atoi retv }
    else if let some retv := check_arg arg "-onnx-provider=" then
      parseLoop prog rest { o with onnx_provider := retv }
    else if (check_arg arg "-h").isSome || (check_arg arg "--help").isSome then
      ⟨0, true, o, [Event.printHelp]⟩
    else
      ⟨-1, false, o, [Event.printUnknownOption arg prog]⟩

/-- Lines 510-601, `parse_arguments(argc, argv, help, ...)`: `argv` holds the `argc`
arguments, and `o` the option variables on entry. -/
def parse_arguments (argv : List String) (o : Options) : ParseRun :=
  parseLoop (argv.headD "") (argv.drop 1) o

/-- What a call of `main` leaves: the returned code and what it wrote and called. -/
structure MainRun where
  code : Int
  trace : List Event
deriving DecidableEq, Repr

/-- Lines 174-179, the macro `EARLY_EXIT`: free the image held by `image`, free the
module state, and return -1. -/
def EARLY_EXIT (image : Option Nat) : List Event :=
  [Event.erImageFree image, Event.edfFreeEyedentify]

/-- Lines 393-430, `loadImage`, for the input of index `i`: the field `size` of the
image it returns, and the calls it makes. -/
def loadImage (S : Sdk) (i : Nat) (input : InputImage) : Nat × List Event :=
  if input.isImageRawYCbCr420 then
    if S.rawFileRead i then (S.imageSize i, [Event.erImageAllocateAndWrap i])
    else (0, [])
  else (S.imageSize i, [Event.erImageRead i])

/-- Lines 444-472, `setEdfCropParamsByLP` and `setEdfCropParamsByCARBOX`, chosen as
on lines 298-306; with the two values `MMRType` has, the branch of line 302 is
never taken. -/
def setEdfCropParams (o : Options) (i : Nat) : List Event :=
  match o.mmr_type with
  | MMRType.LP => [Event.edfCropParamsAllocate 1 2 i]
  | MMRType.CARBOX => [Event.edfCropParamsAllocate 2 0 i]

/-- Lines 279-370: the body of the loop over `inputs` for the input of index `i`;
`some code` when the body returns from `main`, `none` when it reaches its end. -/
def processInput (S : Sdk) (o : Options) (i : Nat) (input : InputImage) :
    List Event × Option Int :=
  let loaded := loadImage S i input
  if loaded.1 = 0 then
    (loaded.2 ++ [Event.cerr ("Error during " ++ input.imageFilename ++ " image reading!\n")]
      ++ EARLY_EXIT (some i), some (-1))
  else
    let cropped := loaded.2 ++ setEdfCropParams o i ++ [Event.edfCropImage i]
    if S.edfCropImage i ≠ 0 then
      (cropped ++ [Event.cerr "Error during image cropping for MMR recognition!\n",
          Event.edfCropParamsFree i] ++ EARLY_EXIT (some i), some (-1))
    else
      let described := cropped
        ++ (if input.isImageRawYCbCr420 then [Event.deleteRawData i] else [])
        ++ [Event.erImageFree (some i), Event.edfCropParamsFree i,
            Event.edfComputeDesc i, Event.edfFreeCropImage i]
      if S.edfComputeDesc i ≠ 0 then
        (described ++ [Event.cerr "Error during descriptor computation!\n"]
          ++ EARLY_EXIT (some i), some (-1))
      else if S.edfClassify i ≠ 0 then
        (described ++ [Event.edfClassify i] ++ EARLY_EXIT (some i), some (-1))
      else
        (described ++ [Event.edfClassify i, Event.edfFreeDesc i, Event.printResults i,
          Event.edfFreeClassifyResult i], none)

/-- Line 278: the loop over the inputs, from index `i` on. -/
def processInputs (S : Sdk) (o : Options) : Nat → List InputImage → List Event × Option Int
  | _, [] => ([], none)
  | i, input :: rest =>
    match processInput S o i input with
    | (ev, some code) => (ev, some code)
    | (ev, none) =>
      let r := processInputs S o (i + 1) rest
      (ev ++ r.1, r.2)

/-- Lines 217-242: linking of the library, with or without `EXPLICIT_LINKING`;
`some code` when `main` returns here. -/
def linkLibrary (L : Loader) (S : Sdk) : List Event × Option Int :=
  if S.EXPLICIT_LINKING then
    let edf_lib_path := EDF_SDK_PATH ++ "lib/" ++ L.EDF_SHLIB_NAME
    let hdll := L.openShlib edf_lib_path
    if hdll = 0 then
      ([Event.openShlib edf_lib_path,
        Event.cerr ("Library \x27" ++ edf_lib_path ++ "\x27 not loaded!\n")], some (-1))
    else if L.loadShfcn hdll "edfLinkAPI" = 0 then
      ([Event.openShlib edf_lib_path, Event.loadShfcn hdll "edfLinkAPI",
        Event.cerr ("Loading function \x27esLinkAPI\x27 from " ++ edf_lib_path ++ " failed!\n")],
       some (-1))
    else if S.edfLinkAPI ≠ 0 then
      ([Event.openShlib edf_lib_path, Event.loadShfcn hdll "edfLinkAPI", Event.edfLinkAPI hdll,
        Event.cerr "Function edfLinkAPI() returned with error!\n"], some (-1))
    else
      ([Event.openShlib edf_lib_path, Event.loadShfcn hdll "edfLinkAPI", Event.edfLinkAPI hdll],
       none)
  else
    ([Event.edfLinkAPI 0], none)

/-- Lines 193-391, `int main(int argc, char * argv[])`. -/
def main (L : Loader) (S : Sdk) (argv : List String) : MainRun :=
  let parsed := parse_arguments argv defaultOptions
  if parsed.code ≠ 0 then
    ⟨-1, parsed.printed ++ [Event.cerr "Argument parsing failed!\n"]⟩
  else if parsed.help then
    ⟨0, parsed.printed⟩
  else
    let o := parsed.options
    match linkLibrary L S with
    | (linked, some code) => ⟨code, parsed.printed ++ linked⟩
    | (linked, none) =>
      let edfModulePath := EDF_SDK_PATH ++ "modules/" ++ EDF_MODULE_NAME ++ "/"
      let mmr_model := selectModel o.fast_version o.mmr_task o.mmr_type
      let config := setEdfInitConfig edfModulePath mmr_model o.computation_mode o.gpu_id
        o.num_threads o.onnx_provider
      if S.edfInitEyedentify config ≠ 0 then
        ⟨-1, parsed.printed ++ linked ++
          [Event.edfInitEyedentify config,
           Event.cerr "Error during Eyedentify module initialization!\n"] ++ EARLY_EXIT none⟩
      else
        let looped := processInputs S o 0 inputs
        match looped.2 with
        | some code =>
          ⟨code, parsed.printed ++ linked ++ [Event.edfInitEyedentify config, Event.edfModelVersion]
            ++ looped.1⟩
        | none =>
          ⟨0, parsed.printed ++ linked ++ [Event.edfInitEyedentify config, Event.edfModelVersion]
            ++ looped.1 ++ [Event.edfFreeEyedentify]
            ++ (if S.EXPLICIT_LINKING then [Event.freeLib S.shlib_handle] else [])⟩

/-! ## Observations on the command line and on runs of `main` -/

/-- The flags the help text lists (lines 562-575). -/
def documentedFlags : List String :=
  ["-vcmmgvct", "-VCMMGVCT", "-vcmmct", "-VCMMCT", "-vcmct", "-VCMCT", "-vcct", "-VCCT",
   "-lp", "-carbox", "-fast", "-precise", "-cpu", "-gpu"]

/-- The options with a value the help text lists (lines 576-584), up to the `=`. -/
def documentedValueOptions : List String :=
  ["-gpu-id=", "-threads=", "-onnx-provider="]

/-- The help options (line 561). -/
def helpOptions : List String := ["-h", "--help"]

/-- An argument that is one of the help options. -/
def isHelpOption (arg : String) : Bool := decide (arg ∈ helpOptions)

/-- An argument that has the form of a documented option: a flag, a help option,
or a value option followed by any text. -/
def matchesDocumented (arg : String) : Bool :=
  decide (arg ∈ documentedFlags) || isHelpOption arg ||
    documentedValueOptions.any fun p => p.data.isPrefixOf arg.data

/-- A decimal integer text: an optional minus sign and decimal digits. -/
def decimalText (negative : Bool) (digits : List Char) : String :=
  ⟨(if negative then ['-'] else []) ++ digits⟩

/-- The integer a decimal integer text denotes. -/
def decimalValue (negative : Bool) (digits : List Char) : Int :=
  if negative then -(digitsValue digits : Int) else digitsValue digits

/-- A library and build under which every call succeeds. -/
def sdkAllGood : Sdk where
  EXPLICIT_LINKING := false
  edfLinkAPI := 0
  shlib_handle := 0
  edfInitEyedentify := fun _ => 0
  rawFileRead := fun _ => true
  imageSize := fun _ => 1
  edfCropImage := fun _ => 0
  edfComputeDesc := fun _ => 0
  edfClassify := fun _ => 0

/-- A library under which the classification of the first input fails. -/
def sdkClassifyFails : Sdk :=
  { sdkAllGood with edfClassify := fun i => if i = 0 then 1 else 0 }

/-- A library under which the descriptor computation of the first input fails. -/
def sdkComputeDescFails : Sdk :=
  { sdkAllGood with edfComputeDesc := fun i => if i = 0 then 1 else 0 }

/-! ## Lemmas -/

theorem EdfAPI.set_shlib_handle (s : EdfAPI) (f : Field) (p : Nat) :
    (s.set f p).shlib_handle = s.shlib_handle := by
  cases f <;> rfl

theorem lookups_append (a b : List Op) : lookups (a ++ b) = lookups a ++ lookups b := by
  induction a with
  | nil => rfl
  | cons x xs ih => cases x <;> simp [lookups, ih]

theorem linkFunctions_ok (L : Loader) (t : List (Field × String × Int)) (s : EdfAPI)
    (h : ∀ r ∈ t, L.loadShfcn s.shlib_handle r.2.1 ≠ 0) :
    linkFunctions L t s =
      (filled L s.shlib_handle t s, t.map (fun r => Op.loadShfcn s.shlib_handle r.2.1), 0) := by
  induction t generalizing s with
  | nil => rfl
  | cons r rest ih =>
    obtain ⟨f, n, c⟩ := r
    have hn : L.loadShfcn s.shlib_handle n ≠ 0 := h (f, n, c) (List.mem_cons_self _ _)
    have hrest := ih (s.set f (L.loadShfcn s.shlib_handle n)) (by
      intro r hr
      rw [EdfAPI.set_shlib_handle]
      exact h r (List.mem_cons_of_mem _ hr))
    rw [EdfAPI.set_shlib_handle] at hrest
    simp [linkFunctions, EDF_LOAD_SHLIB_FCN_BODY, hn, hrest, filled]

theorem linkFunctions_fail (L : Loader) (pre post : List (Field × String × Int)) (s : EdfAPI)
    (f : Field) (n : String) (c : Int)
    (h : ∀ r ∈ pre, L.loadShfcn s.shlib_handle r.2.1 ≠ 0)
    (hn : L.loadShfcn s.shlib_handle n = 0) :
    linkFunctions L (pre ++ (f, n, c) :: post) s =
      ((filled L s.shlib_handle pre s).set f 0,
       pre.map (fun r => Op.loadShfcn s.shlib_handle r.2.1) ++
         [Op.loadShfcn s.shlib_handle n, Op.freeLib s.shlib_handle,
          Op.logErr ("function " ++ n ++ "() not linked")], c) := by
  induction pre generalizing s with
  | nil => simp [linkFunctions, EDF_LOAD_SHLIB_FCN_BODY, hn, filled, EdfAPI.set_shlib_handle]
  | cons r rest ih =>
    obtain ⟨f1, n1, c1⟩ := r
    have hn1 : L.loadShfcn s.shlib_handle n1 ≠ 0 := h (f1, n1, c1) (List.mem_cons_self _ _)
    have hrest := ih (s.set f1 (L.loadShfcn s.shlib_handle n1)) (by
      intro r hr
      rw [EdfAPI.set_shlib_handle]
      exact h r (List.mem_cons_of_mem _ hr)) (by rw [EdfAPI.set_shlib_handle]; exact hn)
    rw [EdfAPI.set_shlib_handle] at hrest
    simp [linkFunctions, EDF_LOAD_SHLIB_FCN_BODY, hn1, hrest, filled]

/-- Either every symbol of a table resolves, or the table splits at the first one that does not. -/
theorem table_split (L : Loader) (h : Nat) (t : List (Field × String × Int)) :
    (∀ r ∈ t, L.loadShfcn h r.2.1 ≠ 0) ∨
    ∃ pre f n c post, t = pre ++ (f, n, c) :: post ∧
      (∀ r ∈ pre, L.loadShfcn h r.2.1 ≠ 0) ∧ L.loadShfcn h n = 0 := by
  induction t with
  | nil => left; simp
  | cons r rest ih =>
    obtain ⟨f, n, c⟩ := r
    by_cases hn : L.loadShfcn h n = 0
    · right; exact ⟨[], f, n, c, rest, rfl, by simp, hn⟩
    · rcases ih with hall | ⟨pre, f1, n1, c1, post, heq, hpre, h0⟩
      · left
        intro r hr
        rcases List.mem_cons.1 hr with rfl | hr
        · exact hn
        · exact hall r hr
      · right
        refine ⟨(f, n, c) :: pre, f1, n1, c1, post, by simp [heq], ?_, h0⟩
        intro r hr
        rcases List.mem_cons.1 hr with rfl | hr
        · exact hn
        · exact hpre r hr


theorem linkFunctions_first_null (L : Loader) (t : List (Field × String × Int)) (s : EdfAPI)
    (i : Nat) (hi : i < t.length)
    (hpre : ∀ j, j < i → L.loadShfcn s.shlib_handle ((t.map fun r => r.2.1).getD j "") ≠ 0)
    (hnull : L.loadShfcn s.shlib_handle ((t.map fun r => r.2.1).getD i "") = 0) :
    (linkFunctions L t s).2.2 = (t.map fun r => r.2.2).getD i 0 ∧
    lookups (linkFunctions L t s).2.1 = (t.map fun r => r.2.1).take (i + 1) := by
  induction t generalizing s i with
  | nil => simp at hi
  | cons r rest ih =>
    obtain ⟨f, n, c⟩ := r
    cases i with
    | zero =>
      have hn : L.loadShfcn s.shlib_handle n = 0 := by simpa using hnull
      simp [linkFunctions, EDF_LOAD_SHLIB_FCN_BODY, hn, lookups]
    | succ i =>
      have hn : L.loadShfcn s.shlib_handle n ≠ 0 := by simpa using hpre 0 (Nat.succ_pos i)
      have hrest := ih (s.set f (L.loadShfcn s.shlib_handle n)) i
        (by simpa using hi)
        (by
          intro j hj
          rw [EdfAPI.set_shlib_handle]
          simpa using hpre (j + 1) (Nat.succ_lt_succ hj))
        (by rw [EdfAPI.set_shlib_handle]; simpa using hnull)
      simp [linkFunctions, EDF_LOAD_SHLIB_FCN_BODY, hn, hrest, lookups]

theorem linkFunctions_first_null_trace (L : Loader) (t : List (Field × String × Int))
    (s : EdfAPI) (i : Nat) (hi : i < t.length)
    (hpre : ∀ j, j < i → L.loadShfcn s.shlib_handle ((t.map fun r => r.2.1).getD j "") ≠ 0)
    (hnull : L.loadShfcn s.shlib_handle ((t.map fun r => r.2.1).getD i "") = 0) :
    (linkFunctions L t s).2.1 =
      ((t.map fun r => r.2.1).take (i + 1)).map (Op.loadShfcn s.shlib_handle) ++
        [Op.freeLib s.shlib_handle,
         Op.logErr ("function " ++ (t.map fun r => r.2.1).getD i "" ++ "() not linked")] := by
  induction t generalizing s i with
  | nil => simp at hi
  | cons r rest ih =>
    obtain ⟨f, n, c⟩ := r
    cases i with
    | zero =>
      have hn : L.loadShfcn s.shlib_handle n = 0 := by simpa using hnull
      simp [linkFunctions, EDF_LOAD_SHLIB_FCN_BODY, hn, EdfAPI.set_shlib_handle]
    | succ i =>
      have hn : L.loadShfcn s.shlib_handle n ≠ 0 := by simpa using hpre 0 (Nat.succ_pos i)
      have hrest := ih (s.set f (L.loadShfcn s.shlib_handle n)) i
        (by simpa using hi)
        (by
          intro j hj
          rw [EdfAPI.set_shlib_handle]
          simpa using hpre (j + 1) (Nat.succ_lt_succ hj))
        (by rw [EdfAPI.set_shlib_handle]; simpa using hnull)
      rw [EdfAPI.set_shlib_handle] at hrest
      simp [linkFunctions, EDF_LOAD_SHLIB_FCN_BODY, hn, hrest]

theorem linkTable_code (k : Nat) (h1 : 1 ≤ k) (h25 : k ≤ 25) :
    (linkTable.map fun r => r.2.2).getD (k - 1) 0 = -(3 + (k : Int)) := by
  interval_cases k <;> rfl


theorem linkTable_codes_range : ∀ r ∈ linkTable, -28 ≤ r.2.2 ∧ r.2.2 ≤ -4 := by
  decide

theorem linkEyedentify_unfold (L : Loader) (sdk path : String) (st : EdfAPI)
    (hp : shlibPath L sdk = some path) (hf : L.fopen path = true) (ho : L.openShlib path ≠ 0) :
    linkEyedentify L (some sdk) (some st) =
      ⟨.returned (linkFunctions L linkTable
          { EdfAPI.zero with shlib_handle := L.openShlib path }).2.2,
       some (linkFunctions L linkTable { EdfAPI.zero with shlib_handle := L.openShlib path }).1,
       [Op.fopen path, Op.fclose, Op.openShlib path] ++
         (linkFunctions L linkTable { EdfAPI.zero with shlib_handle := L.openShlib path }).2.1⟩ := by
  simp [linkEyedentify, hp, hf, ho]

/-- With a library path at hand, the routine returns 0 exactly when the file opens,
the library loads and all symbols of the table resolve. -/
theorem linkEyedentify_zero_iff (L : Loader) (sdk path : String) (st : EdfAPI)
    (hp : shlibPath L sdk = some path) :
    (linkEyedentify L (some sdk) (some st)).outcome = .returned 0 ↔
      (L.fopen path = true ∧ L.openShlib path ≠ 0 ∧
        ∀ name ∈ linkSymbols, L.loadShfcn (L.openShlib path) name ≠ 0) := by
  by_cases hf : L.fopen path = true
  · by_cases ho : L.openShlib path = 0
    · simp [linkEyedentify, hp, hf, ho]
    · rw [linkEyedentify_unfold L sdk path st hp hf ho]
      have hh : ({ EdfAPI.zero with shlib_handle := L.openShlib path } : EdfAPI).shlib_handle
          = L.openShlib path := rfl
      rcases table_split L (L.openShlib path) linkTable with hall | ⟨pre, f, n, c, post, heq, hpre, h0⟩
      · have := linkFunctions_ok L linkTable { EdfAPI.zero with shlib_handle := L.openShlib path }
          (by rw [hh]; exact hall)
        rw [this]
        simp only [hf, ho, ne_eq, not_false_eq_true, true_and, true_iff]
        intro name hname
        obtain ⟨r, hr, rfl⟩ := List.mem_map.1 hname
        exact hall r hr
      · have := linkFunctions_fail L pre post
          { EdfAPI.zero with shlib_handle := L.openShlib path } f n c
          (by rw [hh]; exact hpre) (by rw [hh]; exact h0)
        rw [heq, this]
        have hc : c ≠ 0 := by
          have := linkTable_codes_range (f, n, c) (by rw [heq]; simp)
          simp at this
          omega
        have hmem : n ∈ linkSymbols := by
          unfold linkSymbols
          rw [heq]
          simp
        constructor
        · intro h
          simp at h
          exact absurd h hc
        · rintro ⟨_, _, hall⟩
          exact absurd h0 (hall n hmem)
  · simp [linkEyedentify, hp, hf]

/-- With a library path at hand, the routine returns a code between -28 and 0. -/
theorem linkEyedentify_code_range (L : Loader) (sdk path : String) (st : EdfAPI)
    (hp : shlibPath L sdk = some path) :
    ∃ c : Int, (linkEyedentify L (some sdk) (some st)).outcome = .returned c ∧ -28 ≤ c ∧ c ≤ 0 := by
  by_cases hf : L.fopen path = true
  · by_cases ho : L.openShlib path = 0
    · exact ⟨-3, by simp [linkEyedentify, hp, hf, ho], by decide, by decide⟩
    · rw [linkEyedentify_unfold L sdk path st hp hf ho]
      have hh : ({ EdfAPI.zero with shlib_handle := L.openShlib path } : EdfAPI).shlib_handle
          = L.openShlib path := rfl
      rcases table_split L (L.openShlib path) linkTable with hall | ⟨pre, f, n, c, post, heq, hpre, h0⟩
      · rw [linkFunctions_ok L linkTable { EdfAPI.zero with shlib_handle := L.openShlib path }
          (by rw [hh]; exact hall)]
        exact ⟨0, rfl, by decide, by decide⟩
      · rw [heq, linkFunctions_fail L pre post
          { EdfAPI.zero with shlib_handle := L.openShlib path } f n c
          (by rw [hh]; exact hpre) (by rw [hh]; exact h0)]
        have := linkTable_codes_range (f, n, c) (by rw [heq]; simp)
        simp at this
        exact ⟨c, rfl, this.1, by omega⟩
  · exact ⟨-2, by simp [linkEyedentify, hp, hf], by decide, by decide⟩


theorem filled_shlib_handle (L : Loader) (h : Nat) (t : List (Field × String × Int))
    (s : EdfAPI) : (filled L h t s).shlib_handle = s.shlib_handle := by
  induction t generalizing s with
  | nil => rfl
  | cons r rest ih => rw [filled, ih, EdfAPI.set_shlib_handle]

/-- A call that returns 0 found the file, loaded the library and resolved every
symbol of the table; the record and the trace it leaves are then known in full. -/
theorem linkEyedentify_success (L : Loader) (sdk path : String) (st : EdfAPI)
    (hp : shlibPath L sdk = some path)
    (h0 : (linkEyedentify L (some sdk) (some st)).outcome = .returned 0) :
    linkEyedentify L (some sdk) (some st) =
      ⟨.returned 0,
       some (filled L (L.openShlib path) linkTable
         { EdfAPI.zero with shlib_handle := L.openShlib path }),
       [Op.fopen path, Op.fclose, Op.openShlib path] ++
         linkSymbols.map (Op.loadShfcn (L.openShlib path))⟩ := by
  obtain ⟨hf, ho, hall⟩ := (linkEyedentify_zero_iff L sdk path st hp).1 h0
  rw [linkEyedentify_unfold L sdk path st hp hf ho]
  have hh : ({ EdfAPI.zero with shlib_handle := L.openShlib path } : EdfAPI).shlib_handle
      = L.openShlib path := rfl
  rw [linkFunctions_ok L linkTable { EdfAPI.zero with shlib_handle := L.openShlib path }
    (by
      intro r hr
      rw [hh]
      exact hall r.2.1 (List.mem_map.2 ⟨r, hr, rfl⟩))]
  simp [linkSymbols, Function.comp_def]

/-- A call that returns 0 was given a non-null, non-empty SDK path. -/
theorem linkEyedentify_zero_path (L : Loader) (sdk_path : Option String) (st : EdfAPI)
    (h0 : (linkEyedentify L sdk_path (some st)).outcome = .returned 0) :
    ∃ sdk path, sdk_path = some sdk ∧ shlibPath L sdk = some path := by
  cases sdk_path with
  | none => simp [linkEyedentify] at h0
  | some sdk =>
    cases hp : shlibPath L sdk with
    | none => simp [linkEyedentify, hp] at h0
    | some path => exact ⟨sdk, path, rfl, hp⟩

/-- The record a successful call leaves, field by field: the handle is the one the
loader returned, each field of the table holds the address of the symbol its row
names, and the three fields outside the table are null. -/
theorem filled_linkTable (L : Loader) (h : Nat) :
    filled L h linkTable { EdfAPI.zero with shlib_handle := h } =
      { shlib_handle := h
        edfInitEyedentify := L.loadShfcn h "edfInitEyedentify"
        edfInitEyedentify_ExternalInference := 0
        edfFreeEyedentify := L.loadShfcn h "edfFreeEyedentify"
        edfComputeDesc := L.loadShfcn h "edfComputeDesc"
        edfCompareDescs := L.loadShfcn h "edfCompareDescs"
        edfAllocDesc := L.loadShfcn h "edfAllocDesc"
        edfFreeDesc := L.loadShfcn h "edfFreeDesc"
        edfCropParamsAllocate := L.loadShfcn h "edfCropParamsAllocate"
        edfCropParamsWrap := L.loadShfcn h "edfCropParamsWrap"
        edfCropParamsFree := L.loadShfcn h "edfCropParamsFree"
        edfCropImage := L.loadShfcn h "edfCropImage"
        edfFreeCropImage := L.loadShfcn h "edfFreeCropImage"
        edfModelVersion := L.loadShfcn h "edfModelVersion"
        edfClassify := L.loadShfcn h "edfClassify"
        edfFreeClassifyResult := L.loadShfcn h "edfFreeClassifyResult"
        erImageGetDataTypeSize := L.loadShfcn h "erImageGetDataTypeSize"
        erImageGetColorModelNumChannels := L.loadShfcn h "erImageGetColorModelNumChannels"
        erImageGetPixelDepth := L.loadShfcn h "erImageAllocateBlank"
        erImageAllocateBlank := L.loadShfcn h "erImageAllocateBlank"
        erImageAllocate := L.loadShfcn h "erImageAllocate"
        erImageAllocateAndWrap := L.loadShfcn h "erImageAllocateAndWrap"
        erImageCopy := L.loadShfcn h "erImageCopy"
        erImageRead := L.loadShfcn h "erImageRead"
        erImageWrite := L.loadShfcn h "erImageWrite"
        erImageFree := L.loadShfcn h "erImageFree"
        erVersion := L.loadShfcn h "erVersion"
        erGetErrorLog := 0
        erResetErrorLog := 0 } := rfl

/-! ## The claims -/

/-- C1 (defect in the code): the claim promises, for every non-null `sdk_path`, either 0
or a negative error code.  For the empty `sdk_path` the routine returns no code at
all, whatever the loader and the record are. -/
theorem linkEyedentify_empty_sdk_path_returns_no_code :
    ∀ (L : Loader) (st : EdfAPI) (c : Int),
      (linkEyedentify L (some "") (some st)).outcome ≠ Outcome.returned c := by
  intro L st c h
  cases h

/-- C2 (defect in the code): with a complete library, `linkEyedentify` returns 0 and
the field `erImageGetPixelDepth` holds the address of the symbol
`erImageAllocateBlank`, which is not the address of the symbol `erImageGetPixelDepth`. -/
theorem linkEyedentify_pixelDepth_field_holds_allocateBlank :
    (linkEyedentify fullLoader (some "../../sdk/") (some EdfAPI.zero)).outcome
      = Outcome.returned 0 ∧
    (linkEyedentify fullLoader (some "../../sdk/") (some EdfAPI.zero)).state.map
        (fun s => s.get Field.erImageGetPixelDepth)
      = some (fullLoader.loadShfcn 7 "erImageAllocateBlank") ∧
    fullLoader.loadShfcn 7 "erImageAllocateBlank"
      ≠ fullLoader.loadShfcn 7 (Field.ident Field.erImageGetPixelDepth) := by
  decide

/-- C3 (defect in the code): with a complete library, `linkEyedentify` returns 0 and
leaves the fields `edfInitEyedentify_ExternalInference`, `erGetErrorLog` and
`erResetErrorLog` null, although the library exports all three symbols. -/
theorem linkEyedentify_leaves_three_fields_null :
    (linkEyedentify fullLoader (some "../../sdk/") (some EdfAPI.zero)).outcome
      = Outcome.returned 0 ∧
    (linkEyedentify fullLoader (some "../../sdk/") (some EdfAPI.zero)).state.map
        (fun s => (s.edfInitEyedentify_ExternalInference, s.erGetErrorLog, s.erResetErrorLog))
      = some (0, 0, 0) ∧
    fullLoader.loadShfcn 7 "edfInitEyedentify_ExternalInference" ≠ 0 ∧
    fullLoader.loadShfcn 7 "erGetErrorLog" ≠ 0 ∧
    fullLoader.loadShfcn 7 "erResetErrorLog" ≠ 0 := by
  decide

/-- C4: with the library path `path` built from `sdk`, `linkEyedentify` exits at the first
failing step.  When the file cannot be opened it returns -2 after the one call `fopen`:
the library is not loaded and no symbol is looked up.  When the file opens but the
library does not load it returns -3 after `fopen`, `fclose` and the load attempt: no
symbol is looked up.  When the k-th lookup (k = 1..25) is the first to yield null it
returns -(3+k), and its calls are `fopen`, `fclose`, the load, the first k lookups of
the fixed order and the closing of the library: no later symbol is looked up.  The
fixed order has 25 entries, `edfInitEyedentify` first and `erVersion` last. -/
theorem linkEyedentify_first_failing_step (L : Loader) (sdk path : String) (st : EdfAPI)
    (hp : shlibPath L sdk = some path) :
    (L.fopen path = false →
      linkEyedentify L (some sdk) (some st) =
        ⟨Outcome.returned (-2), some EdfAPI.zero,
          [Op.fopen path, Op.logErr ("Library file " ++ path ++ " does not exist...")]⟩) ∧
    (L.fopen path = true → L.openShlib path = 0 →
      linkEyedentify L (some sdk) (some st) =
        ⟨Outcome.returned (-3), some EdfAPI.zero,
          [Op.fopen path, Op.fclose, Op.openShlib path,
           Op.logErr ("Library file " ++ path ++ " could not be loaded...")]⟩) ∧
    (∀ k : Nat, 1 ≤ k → k ≤ 25 → L.fopen path = true → L.openShlib path ≠ 0 →
      (∀ j, j < k - 1 → L.loadShfcn (L.openShlib path) (linkSymbols.getD j "") ≠ 0) →
      L.loadShfcn (L.openShlib path) (linkSymbols.getD (k - 1) "") = 0 →
      (linkEyedentify L (some sdk) (some st)).outcome = Outcome.returned (-(3 + (k : Int))) ∧
      (linkEyedentify L (some sdk) (some st)).trace =
        [Op.fopen path, Op.fclose, Op.openShlib path] ++
          (linkSymbols.take k).map (Op.loadShfcn (L.openShlib path)) ++
          [Op.freeLib (L.openShlib path),
           Op.logErr ("function " ++ linkSymbols.getD (k - 1) "" ++ "() not linked")] ∧
      lookups (linkEyedentify L (some sdk) (some st)).trace = linkSymbols.take k) ∧
    linkSymbols.length = 25 ∧
    linkSymbols.head? = some "edfInitEyedentify" ∧
    linkSymbols.getLast? = some "erVersion" := by
  refine ⟨?_, ?_, ?_, rfl, rfl, rfl⟩
  · intro hf
    simp [linkEyedentify, hp, hf]
  · intro hf ho
    simp [linkEyedentify, hp, hf, ho]
  · intro k h1 h25 hf ho hpre hnull
    rw [linkEyedentify_unfold L sdk path st hp hf ho]
    have hlen : k - 1 < linkTable.length := by
      have : linkTable.length = 25 := rfl
      omega
    obtain ⟨hc, hl⟩ := linkFunctions_first_null L linkTable
      { EdfAPI.zero with shlib_handle := L.openShlib path } (k - 1) hlen hpre hnull
    have ht := linkFunctions_first_null_trace L linkTable
      { EdfAPI.zero with shlib_handle := L.openShlib path } (k - 1) hlen hpre hnull
    have hk : k - 1 + 1 = k := by omega
    rw [hk] at hl ht
    refine ⟨?_, ?_, ?_⟩
    · show Outcome.returned _ = _
      rw [hc, linkTable_code k h1 h25]
    · show [Op.fopen path, Op.fclose, Op.openShlib path] ++ _ = _
      rw [ht, List.append_assoc]
      rfl
    · show lookups ([Op.fopen path, Op.fclose, Op.openShlib path] ++ _) = _
      rw [lookups_append, hl]
      rfl

/-- Witness for C4: a missing file, a file that does not load, and a library without
`edfComputeDesc`, the third symbol looked up. -/
theorem linkEyedentify_first_failing_step_witness :
    linkEyedentify loaderMissingFile (some "sdk") (some EdfAPI.zero) =
      ⟨Outcome.returned (-2), some EdfAPI.zero,
        [Op.fopen "sdk/lib/libeyedentify.so",
         Op.logErr ("Library file " ++ "sdk/lib/libeyedentify.so" ++ " does not exist...")]⟩ ∧
    linkEyedentify loaderNotLoadable (some "sdk") (some EdfAPI.zero) =
      ⟨Outcome.returned (-3), some EdfAPI.zero,
        [Op.fopen "sdk/lib/libeyedentify.so", Op.fclose, Op.openShlib "sdk/lib/libeyedentify.so",
         Op.logErr ("Library file " ++ "sdk/lib/libeyedentify.so" ++ " could not be loaded...")]⟩ ∧
    (linkEyedentify loaderWithoutComputeDesc (some "sdk") (some EdfAPI.zero)).outcome
      = Outcome.returned (-(3 + ((3 : Nat) : Int))) ∧
    (linkEyedentify loaderWithoutComputeDesc (some "sdk") (some EdfAPI.zero)).trace =
      [Op.fopen "sdk/lib/libeyedentify.so", Op.fclose, Op.openShlib "sdk/lib/libeyedentify.so"] ++
        (linkSymbols.take 3).map
          (Op.loadShfcn (loaderWithoutComputeDesc.openShlib "sdk/lib/libeyedentify.so")) ++
        [Op.freeLib (loaderWithoutComputeDesc.openShlib "sdk/lib/libeyedentify.so"),
         Op.logErr ("function " ++ linkSymbols.getD (3 - 1) "" ++ "() not linked")] ∧
    lookups (linkEyedentify loaderWithoutComputeDesc (some "sdk") (some EdfAPI.zero)).trace
      = linkSymbols.take 3 :=
  ⟨(linkEyedentify_first_failing_step loaderMissingFile "sdk" "sdk/lib/libeyedentify.so"
      EdfAPI.zero (by decide)).1 (by decide),
   (linkEyedentify_first_failing_step loaderNotLoadable "sdk" "sdk/lib/libeyedentify.so"
      EdfAPI.zero (by decide)).2.1 (by decide) (by decide),
   (linkEyedentify_first_failing_step loaderWithoutComputeDesc "sdk" "sdk/lib/libeyedentify.so"
      EdfAPI.zero (by decide)).2.2.1 3 (by decide) (by decide) (by decide) (by decide)
      (by decide) (by decide)⟩

/-- C5: when `sdk_path` or `edf_api_state` is null, `linkEyedentify` returns -1, makes no
call to the file system or the loader, and leaves the record untouched. -/
theorem linkEyedentify_null_argument (L : Loader) (sdk_path : Option String)
    (edf_api_state : Option EdfAPI) (h : sdk_path = none ∨ edf_api_state = none) :
    linkEyedentify L sdk_path edf_api_state = ⟨Outcome.returned (-1), edf_api_state, []⟩ := by
  rcases h with rfl | rfl
  · rfl
  · cases sdk_path <;> rfl

/-- Witness for C5: a null `sdk_path` with a record that holds a handle. -/
theorem linkEyedentify_null_argument_witness :
    linkEyedentify fullLoader none (some { EdfAPI.zero with shlib_handle := 9 })
      = ⟨Outcome.returned (-1), some { EdfAPI.zero with shlib_handle := 9 }, []⟩ :=
  linkEyedentify_null_argument fullLoader none (some { EdfAPI.zero with shlib_handle := 9 })
    (Or.inl rfl)

/-- C6 (defect in the code): for the empty `sdk_path`, a non-null argument, the call does
not return: `sdkPath.at(sdkPath.length()-1)` throws `std::out_of_range` before the
record is zeroed and before any call to the file system or the loader. -/
theorem linkEyedentify_empty_sdk_path_throws :
    ∀ (L : Loader) (st : EdfAPI),
      linkEyedentify L (some "") (some st) = ⟨Outcome.threw_out_of_range, some st, []⟩ := by
  intro L st
  rfl

/-- C7: `unlinkEyedentify` returns 0 exactly when `edf_api_state` is non-null and -1
otherwise; when it returns 0 its only call is one `ER_FREE_LIB` on the handle the record
held, and afterwards the handle and all 28 function pointers are zero. -/
theorem unlinkEyedentify_spec (edf_api_state : Option EdfAPI) :
    ((unlinkEyedentify edf_api_state).outcome = Outcome.returned 0 ↔ edf_api_state ≠ none) ∧
    (edf_api_state = none →
      (unlinkEyedentify edf_api_state).outcome = Outcome.returned (-1)) ∧
    ((unlinkEyedentify edf_api_state).outcome = Outcome.returned 0 →
      ∃ st st', edf_api_state = some st ∧
        (unlinkEyedentify edf_api_state).trace = [Op.freeLib st.shlib_handle] ∧
        (unlinkEyedentify edf_api_state).state = some st' ∧
        st'.shlib_handle = 0 ∧ ∀ f : Field, st'.get f = 0) := by
  cases edf_api_state with
  | none =>
    refine ⟨?_, fun _ => rfl, ?_⟩
    · simp [unlinkEyedentify]
    · intro h
      simp [unlinkEyedentify] at h
  | some st =>
    refine ⟨?_, ?_, ?_⟩
    · simp [unlinkEyedentify]
    · intro h
      cases h
    · intro _
      refine ⟨st, EdfAPI.zero, rfl, rfl, rfl, rfl, ?_⟩
      intro f
      cases f <;> rfl

/-- Witness for C7: a record that holds the handle 7 and one function pointer, and
the null pointer. -/
theorem unlinkEyedentify_spec_witness :
    (∃ st st', some { EdfAPI.zero with shlib_handle := 7, erVersion := 125 } = some st ∧
      (unlinkEyedentify (some { EdfAPI.zero with shlib_handle := 7, erVersion := 125 })).trace
        = [Op.freeLib st.shlib_handle] ∧
      (unlinkEyedentify (some { EdfAPI.zero with shlib_handle := 7, erVersion := 125 })).state
        = some st' ∧
      st'.shlib_handle = 0 ∧ ∀ f : Field, st'.get f = 0) ∧
    (unlinkEyedentify none).outcome = Outcome.returned (-1) :=
  ⟨(unlinkEyedentify_spec (some { EdfAPI.zero with shlib_handle := 7, erVersion := 125 })).2.2
      (by decide),
   (unlinkEyedentify_spec none).2.1 rfl⟩

/-- C8: whatever the record held before, when `linkEyedentify` returns 0 it opened the
library once, at the library path, without closing it; `unlinkEyedentify` on the same
record then returns 0, its only call closes the handle that was opened, and the record
is all-zero, which is also what `linkEyedentify` leaves when it stops before opening
the library (return code -2). -/
theorem unlinkEyedentify_after_linkEyedentify (L : Loader) (sdk_path : Option String)
    (st : EdfAPI)
    (h0 : (linkEyedentify L sdk_path (some st)).outcome = Outcome.returned 0) :
    ∃ sdk path, sdk_path = some sdk ∧ shlibPath L sdk = some path ∧
      L.openShlib path ≠ 0 ∧
      (linkEyedentify L sdk_path (some st)).trace =
        [Op.fopen path, Op.fclose, Op.openShlib path] ++
          linkSymbols.map (Op.loadShfcn (L.openShlib path)) ∧
      unlinkEyedentify (linkEyedentify L sdk_path (some st)).state =
        ⟨Outcome.returned 0, some EdfAPI.zero, [Op.freeLib (L.openShlib path)]⟩ ∧
      (EdfAPI.zero.shlib_handle = 0 ∧ ∀ f : Field, EdfAPI.zero.get f = 0) ∧
      ∀ (L2 : Loader) (st2 : EdfAPI),
        (linkEyedentify L2 sdk_path (some st2)).outcome = Outcome.returned (-2) →
        (linkEyedentify L2 sdk_path (some st2)).state = some EdfAPI.zero := by
  obtain ⟨sdk, path, rfl, hp⟩ := linkEyedentify_zero_path L sdk_path st h0
  have hs := linkEyedentify_success L sdk path st hp h0
  obtain ⟨_, ho, _⟩ := (linkEyedentify_zero_iff L sdk path st hp).1 h0
  refine ⟨sdk, path, rfl, hp, ho, by rw [hs], ?_, ⟨rfl, fun f => by cases f <;> rfl⟩, ?_⟩
  · rw [hs]
    show unlinkEyedentify (some _) = _
    simp only [unlinkEyedentify, filled_shlib_handle]
  · intro L2 st2 h2
    cases hp2 : shlibPath L2 sdk with
    | none => simp [linkEyedentify, hp2] at h2
    | some path2 =>
      by_cases hf : L2.fopen path2 = true
      · by_cases ho2 : L2.openShlib path2 = 0
        · simp [linkEyedentify, hp2, hf, ho2]
        · exfalso
          rw [linkEyedentify_unfold L2 sdk path2 st2 hp2 hf ho2] at h2
          rcases table_split L2 (L2.openShlib path2) linkTable with
            hall | ⟨pre, f, n, c, post, heq, hpre, hn⟩
          · rw [linkFunctions_ok L2 linkTable
              { EdfAPI.zero with shlib_handle := L2.openShlib path2 } hall] at h2
            simp at h2
          · rw [heq, linkFunctions_fail L2 pre post
              { EdfAPI.zero with shlib_handle := L2.openShlib path2 } f n c hpre hn] at h2
            have := linkTable_codes_range (f, n, c) (by rw [heq]; simp)
            simp at h2 this
            omega
      · simp [linkEyedentify, hp2, hf]

/-- Witness for C8: a complete library, linked into a record that held stale data. -/
theorem unlinkEyedentify_after_linkEyedentify_witness :
    ∃ sdk path, some "../../sdk/" = some sdk ∧ shlibPath fullLoader sdk = some path ∧
      fullLoader.openShlib path ≠ 0 ∧
      (linkEyedentify fullLoader (some "../../sdk/")
          (some { EdfAPI.zero with shlib_handle := 3, erVersion := 4 })).trace =
        [Op.fopen path, Op.fclose, Op.openShlib path] ++
          linkSymbols.map (Op.loadShfcn (fullLoader.openShlib path)) ∧
      unlinkEyedentify (linkEyedentify fullLoader (some "../../sdk/")
          (some { EdfAPI.zero with shlib_handle := 3, erVersion := 4 })).state =
        ⟨Outcome.returned 0, some EdfAPI.zero, [Op.freeLib (fullLoader.openShlib path)]⟩ ∧
      (EdfAPI.zero.shlib_handle = 0 ∧ ∀ f : Field, EdfAPI.zero.get f = 0) ∧
      ∀ (L2 : Loader) (st2 : EdfAPI),
        (linkEyedentify L2 (some "../../sdk/") (some st2)).outcome = Outcome.returned (-2) →
        (linkEyedentify L2 (some "../../sdk/") (some st2)).state = some EdfAPI.zero :=
  unlinkEyedentify_after_linkEyedentify fullLoader (some "../../sdk/")
    { EdfAPI.zero with shlib_handle := 3, erVersion := 4 } (by decide)

/-- C10: for each of the four tasks, both crop types and both speeds, the index
`2*task+type` is at most 7 and inside both model tables, and the selected model is
`MMR` or `MMRBOX`, `_`, the task's name, `_`, `FAST` or `PREC`, `_2024Q2.dat`. -/
theorem selectModel_name (option_fast_version : Bool) (option_mmr_task : MMRTask)
    (option_mmr_type : MMRType) :
    modelIndex option_mmr_task option_mmr_type ≤ 7 ∧
    modelIndex option_mmr_task option_mmr_type < MMR_FAST_MODELS.length ∧
    modelIndex option_mmr_task option_mmr_type < MMR_PREC_MODELS.length ∧
    selectModel option_fast_version option_mmr_task option_mmr_type =
      some ((match option_mmr_type with
              | MMRType.LP => "MMR"
              | MMRType.CARBOX => "MMRBOX") ++ "_" ++ option_mmr_task.ident ++ "_" ++
            (if option_fast_version then "FAST" else "PREC") ++ "_2024Q2.dat") := by
  cases option_fast_version <;> cases option_mmr_task <;> cases option_mmr_type <;> decide

/-! ## Lemmas on the command line and on `main` -/

theorem check_arg_flag (arg opt : String) (h : opt.data.getLast? ≠ some '=') :
    (check_arg arg opt).isSome = decide (arg = opt) := by
  unfold check_arg
  by_cases hlen : arg.length = opt.length
  · have htake : arg.data.take opt.length = arg.data :=
      List.take_of_length_le (le_of_eq hlen)
    by_cases heq : arg = opt
    · subst heq
      simp [htake]
    · have hd : ¬ arg.data = opt.data := fun hd => heq (String.ext hd)
      simp [hlen, htake, hd, heq]
  · have heq : ¬ arg = opt := fun heq => hlen (by rw [heq])
    simp [h, hlen, heq]

theorem check_arg_value (arg opt : String) (h : opt.data.getLast? = some '=') :
    check_arg arg opt =
      if opt.data.isPrefixOf arg.data then some ⟨arg.data.drop opt.length⟩ else none := by
  unfold check_arg
  have hpre : arg.data.take opt.length = opt.data ↔ opt.data.isPrefixOf arg.data = true := by
    rw [List.isPrefixOf_iff_prefix, List.prefix_iff_eq_take]
    exact ⟨fun h => h.symm, fun h => h.symm⟩
  by_cases hp : opt.data.isPrefixOf arg.data = true
  · simp [h, hp, hpre.2 hp]
  · have : ¬ arg.data.take opt.length = opt.data := fun h2 => hp (hpre.1 h2)
    simp [h, hp, this]

/-- The loop body of `parse_arguments`, with each test of `check_arg` spelled out: a
flag must equal the argument, a value option must begin it. -/
theorem parseLoop_cons (prog arg : String) (rest : List String) (o : Options) :
    parseLoop prog (arg :: rest) o =
      if arg = "-vcmmgvct" ∨ arg = "-VCMMGVCT" then
        parseLoop prog rest { o with mmr_task := MMRTask.VCMMGVCT }
      else if arg = "-vcmmct" ∨ arg = "-VCMMCT" then
        parseLoop prog rest { o with mmr_task := MMRTask.VCMMCT }
      else if arg = "-vcmct" ∨ arg = "-VCMCT" then
        parseLoop prog rest { o with mmr_task := MMRTask.VCMCT }
      else if arg = "-vcct" ∨ arg = "-VCCT" then
        parseLoop prog rest { o with mmr_task := MMRTask.VCCT }
      else if arg = "-lp" then
        parseLoop prog rest { o with mmr_type := MMRType.LP }
      else if arg = "-carbox" then
        parseLoop prog rest { o with mmr_type := MMRType.CARBOX }
      else if arg = "-fast" then
        parseLoop prog rest { o with fast_version := true }
      else if arg = "-precise" then
        parseLoop prog rest { o with fast_version := false }
      else if arg = "-cpu" then
        parseLoop prog rest { o with computation_mode := ERComputationMode.ER_COMPUTATION_MODE_CPU }
      else if "-gpu-id=".data.isPrefixOf arg.data then
        parseLoop prog rest { o with gpu_id := atoi ⟨arg.data.drop 8⟩ }
      else if arg = "-gpu" then
        parseLoop prog rest { o with computation_mode := ERComputationMode.ER_COMPUTATION_MODE_GPU }
      else if "-threads=".data.isPrefixOf arg.data then
        parseLoop prog rest { o with num_threads := atoi ⟨arg.data.drop 9⟩ }
      else if "-onnx-provider=".data.isPrefixOf arg.data then
        parseLoop prog rest { o with onnx_provider := ⟨arg.data.drop 15⟩ }
      else if arg = "-h" ∨ arg = "--help" then
        ⟨0, true, o, [Event.printHelp]⟩
      else
        ⟨-1, false, o, [Event.printUnknownOption arg prog]⟩ := by
  rw [parseLoop]
  have f1 := check_arg_flag arg "-vcmmgvct" (by decide)
  have f2 := check_arg_flag arg "-VCMMGVCT" (by decide)
  have f3 := check_arg_flag arg "-vcmmct" (by decide)
  have f4 := check_arg_flag arg "-VCMMCT" (by decide)
  have f5 := check_arg_flag arg "-vcmct" (by decide)
  have f6 := check_arg_flag arg "-VCMCT" (by decide)
  have f7 := check_arg_flag arg "-vcct" (by decide)
  have f8 := check_arg_flag arg "-VCCT" (by decide)
  have f9 := check_arg_flag arg "-lp" (by decide)
  have f10 := check_arg_flag arg "-carbox" (by decide)
  have f11 := check_arg_flag arg "-fast" (by decide)
  have f12 := check_arg_flag arg "-precise" (by decide)
  have f13 := check_arg_flag arg "-cpu" (by decide)
  have f14 := check_arg_flag arg "-gpu" (by decide)
  have f15 := check_arg_flag arg "-h" (by decide)
  have f16 := check_arg_flag arg "--help" (by decide)
  have v1 := check_arg_value arg "-gpu-id=" (by decide)
  have v2 := check_arg_value arg "-threads=" (by decide)
  have v3 := check_arg_value arg "-onnx-provider=" (by decide)
  have l1 : "-gpu-id=".length = 8 := rfl
  have l2 : "-threads=".length = 9 := rfl
  have l3 : "-onnx-provider=".length = 15 := rfl
  rw [l1] at v1
  rw [l2] at v2
  rw [l3] at v3
  simp only [f1, f2, f3, f4, f5, f6, f7, f8, f9, f10, f11, f12, f13, f14, f15, f16, v1, v2, v3,
    Bool.or_eq_true, decide_eq_true_eq]
  by_cases p1 : "-gpu-id=".data.isPrefixOf arg.data = true <;>
  by_cases p2 : "-threads=".data.isPrefixOf arg.data = true <;>
  by_cases p3 : "-onnx-provider=".data.isPrefixOf arg.data = true <;>
  simp only [p1, p2, p3, if_true, if_false, Bool.false_eq_true]

theorem parseLoop_step (prog arg : String) (rest : List String) (o : Options) :
    (isHelpOption arg = true ∧
      parseLoop prog (arg :: rest) o = ⟨0, true, o, [Event.printHelp]⟩) ∨
    (matchesDocumented arg = false ∧
      parseLoop prog (arg :: rest) o = ⟨-1, false, o, [Event.printUnknownOption arg prog]⟩) ∨
    (matchesDocumented arg = true ∧ isHelpOption arg = false ∧
      ∃ o', parseLoop prog (arg :: rest) o = parseLoop prog rest o') := by
  have he := parseLoop_cons prog arg rest o
  have hval : ∀ p ∈ documentedValueOptions, p.data.isPrefixOf arg.data = true →
      matchesDocumented arg = true ∧ isHelpOption arg = false := by
    intro p hp hpre
    constructor
    · simp only [matchesDocumented, Bool.or_eq_true, List.any_eq_true]
      exact Or.inr ⟨p, hp, hpre⟩
    · by_contra hh
      have hmem : arg ∈ helpOptions := of_decide_eq_true (by simpa [isHelpOption] using hh)
      have hh' : arg = "-h" ∨ arg = "--help" := by
        simpa [helpOptions] using hmem
      simp only [documentedValueOptions, List.mem_cons, List.mem_singleton, List.not_mem_nil,
        or_false] at hp
      rcases hh' with rfl | rfl <;> rcases hp with rfl | rfl | rfl <;>
        exact absurd hpre (by decide)
  by_cases h1 : arg = "-vcmmgvct" ∨ arg = "-VCMMGVCT"
  · rw [if_pos h1] at he
    right; right
    rcases h1 with rfl | rfl <;> exact ⟨by decide, by decide, _, he⟩
  rw [if_neg h1] at he
  by_cases h2 : arg = "-vcmmct" ∨ arg = "-VCMMCT"
  · rw [if_pos h2] at he
    right; right
    rcases h2 with rfl | rfl <;> exact ⟨by decide, by decide, _, he⟩
  rw [if_neg h2] at he
  by_cases h3 : arg = "-vcmct" ∨ arg = "-VCMCT"
  · rw [if_pos h3] at he
    right; right
    rcases h3 with rfl | rfl <;> exact ⟨by decide, by decide, _, he⟩
  rw [if_neg h3] at he
  by_cases h4 : arg = "-vcct" ∨ arg = "-VCCT"
  · rw [if_pos h4] at he
    right; right
    rcases h4 with rfl | rfl <;> exact ⟨by decide, by decide, _, he⟩
  rw [if_neg h4] at he
  by_cases h5 : arg = "-lp"
  · rw [if_pos h5] at he
    right; right
    subst h5
    exact ⟨by decide, by decide, _, he⟩
  rw [if_neg h5] at he
  by_cases h6 : arg = "-carbox"
  · rw [if_pos h6] at he
    right; right
    subst h6
    exact ⟨by decide, by decide, _, he⟩
  rw [if_neg h6] at he
  by_cases h7 : arg = "-fast"
  · rw [if_pos h7] at he
    right; right
    subst h7
    exact ⟨by decide, by decide, _, he⟩
  rw [if_neg h7] at he
  by_cases h8 : arg = "-precise"
  · rw [if_pos h8] at he
    right; right
    subst h8
    exact ⟨by decide, by decide, _, he⟩
  rw [if_neg h8] at he
  by_cases h9 : arg = "-cpu"
  · rw [if_pos h9] at he
    right; right
    subst h9
    exact ⟨by decide, by decide, _, he⟩
  rw [if_neg h9] at he
  by_cases h10 : "-gpu-id=".data.isPrefixOf arg.data = true
  · rw [if_pos h10] at he
    right; right
    exact ⟨(hval "-gpu-id=" (by decide) h10).1, (hval "-gpu-id=" (by decide) h10).2, _, he⟩
  rw [if_neg h10] at he
  by_cases h11 : arg = "-gpu"
  · rw [if_pos h11] at he
    right; right
    subst h11
    exact ⟨by decide, by decide, _, he⟩
  rw [if_neg h11] at he
  by_cases h12 : "-threads=".data.isPrefixOf arg.data = true
  · rw [if_pos h12] at he
    right; right
    exact ⟨(hval "-threads=" (by decide) h12).1, (hval "-threads=" (by decide) h12).2, _, he⟩
  rw [if_neg h12] at he
  by_cases h13 : "-onnx-provider=".data.isPrefixOf arg.data = true
  · rw [if_pos h13] at he
    right; right
    exact ⟨(hval "-onnx-provider=" (by decide) h13).1, (hval "-onnx-provider=" (by decide) h13).2, _, he⟩
  rw [if_neg h13] at he
  by_cases h14 : arg = "-h" ∨ arg = "--help"
  · rw [if_pos h14] at he
    left
    rcases h14 with rfl | rfl <;> exact ⟨by decide, he⟩
  rw [if_neg h14] at he
  right; left
  refine ⟨?_, he⟩
  simp only [not_or] at h1 h2 h3 h4 h14
  simp [matchesDocumented, documentedFlags, isHelpOption, helpOptions,
    documentedValueOptions, h1, h2, h3, h4, h5, h6, h7, h8, h9, h10, h11, h12, h13, h14]

theorem isHelpOption_matchesDocumented (arg : String) (h : isHelpOption arg = true) :
    matchesDocumented arg = true := by
  simp [matchesDocumented, h]

/-- The loop returns -1 exactly when an argument of no documented form comes before
every help option, and it has then printed one warning, about that argument. -/
theorem parseLoop_code (prog : String) (args : List String) (o : Options) :
    ((parseLoop prog args o).code = -1 ↔
      ∃ pre a post, args = pre ++ a :: post ∧ matchesDocumented a = false ∧
        ∀ b ∈ pre, isHelpOption b = false) ∧
    ((parseLoop prog args o).code = -1 →
      ∃ a, (parseLoop prog args o).printed = [Event.printUnknownOption a prog]) := by
  induction args generalizing o with
  | nil =>
    refine ⟨⟨fun h => ?_, fun ⟨pre, a, post, h, _⟩ => ?_⟩, fun h => ?_⟩
    · simp [parseLoop] at h
    · simp at h
    · simp [parseLoop] at h
  | cons arg rest ih =>
    rcases parseLoop_step prog arg rest o with ⟨hh, he⟩ | ⟨hm, he⟩ | ⟨hm, hh, o', he⟩
    · rw [he]
      refine ⟨⟨fun h => ?_, fun ⟨pre, a, post, h, hma, hpre⟩ => ?_⟩, fun h => ?_⟩
      · simp at h
      · exfalso
        cases pre with
        | nil =>
          simp only [List.nil_append, List.cons.injEq] at h
          rw [← h.1, isHelpOption_matchesDocumented arg hh] at hma
          exact Bool.noConfusion hma
        | cons b pre' =>
          simp only [List.cons_append, List.cons.injEq] at h
          have := hpre b (List.mem_cons_self _ _)
          rw [← h.1, hh] at this
          exact Bool.noConfusion this
      · simp at h
    · rw [he]
      exact ⟨⟨fun _ => ⟨[], arg, rest, rfl, hm, by simp⟩, fun _ => rfl⟩, fun _ => ⟨arg, rfl⟩⟩
    · rw [he]
      refine ⟨⟨fun h => ?_, fun ⟨pre, a, post, h, hma, hpre⟩ => ?_⟩, (ih o').2⟩
      · obtain ⟨pre, a, post, hr, hma, hpre⟩ := (ih o').1.1 h
        refine ⟨arg :: pre, a, post, by rw [hr]; rfl, hma, ?_⟩
        intro b hb
        rcases List.mem_cons.1 hb with rfl | hb
        · exact hh
        · exact hpre b hb
      · cases pre with
        | nil =>
          exfalso
          simp only [List.nil_append, List.cons.injEq] at h
          rw [← h.1, hm] at hma
          exact Bool.noConfusion hma
        | cons b pre' =>
          simp only [List.cons_append, List.cons.injEq] at h
          exact (ih o').1.2 ⟨pre', a, post, h.2, hma,
            fun c hc => hpre c (List.mem_cons_of_mem _ hc)⟩

theorem append_ne_of_second_char (p t a : String)
    (h : decide (1 < p.data.length ∧ p.data[1]? ≠ a.data[1]?) = true) : ¬ (p ++ t = a) := by
  obtain ⟨hlen, hne⟩ := of_decide_eq_true h
  intro e
  apply hne
  rw [← e, String.data_append, List.getElem?_append_left hlen]

theorem not_prefix_of_second_char (p t a : String)
    (h : decide (1 < p.data.length ∧ 1 < a.data.length ∧ p.data[1]? ≠ a.data[1]?) = true) :
    a.data.isPrefixOf (p ++ t).data = false := by
  obtain ⟨hlen, hlen', hne⟩ := of_decide_eq_true h
  cases hp : a.data.isPrefixOf (p ++ t).data with
  | false => rfl
  | true =>
    exfalso
    obtain ⟨s, hs⟩ := List.isPrefixOf_iff_prefix.1 hp
    apply hne
    have h1 : (p ++ t).data[1]? = p.data[1]? := by
      rw [String.data_append, List.getElem?_append_left hlen]
    have h2 : (p ++ t).data[1]? = a.data[1]? := by
      rw [← hs, List.getElem?_append_left hlen']
    rw [← h1, h2]

theorem isspace_of_isDigit (c : Char) (h : c.isDigit = true) : isspace c = false := by
  cases hs : isspace c with
  | false => rfl
  | true =>
    exfalso
    simp only [isspace, Bool.or_eq_true, decide_eq_true_eq] at hs
    rcases hs with ((((rfl | rfl) | rfl) | rfl) | rfl) | rfl <;> exact absurd h (by decide)

theorem takeWhile_isDigit (ds : List Char) (h : ∀ c ∈ ds, c.isDigit = true) :
    ds.takeWhile Char.isDigit = ds :=
  List.takeWhile_eq_self_iff.2 h

theorem atoi_decimalText (negative : Bool) (digits : List Char) (hne : digits ≠ [])
    (hdig : ∀ c ∈ digits, c.isDigit = true) :
    atoi (decimalText negative digits) = wrapInt32 (decimalValue negative digits) := by
  cases negative with
  | true =>
    have hd : (decimalText true digits).data = '-' :: digits := rfl
    unfold atoi
    rw [hd]
    have : List.dropWhile isspace ('-' :: digits) = '-' :: digits := rfl
    rw [this]
    simp only [takeWhile_isDigit digits hdig, decimalValue, if_true]
  | false =>
    obtain ⟨d, ds, rfl⟩ := List.exists_cons_of_ne_nil hne
    have hd : (decimalText false (d :: ds)).data = d :: ds := rfl
    have hdd : d.isDigit = true := hdig d (List.mem_cons_self _ _)
    have hsp : isspace d = false := isspace_of_isDigit d hdd
    have hminus : d ≠ '-' := fun e => absurd (e ▸ hdd) (by decide)
    have hplus : d ≠ '+' := fun e => absurd (e ▸ hdd) (by decide)
    unfold atoi
    rw [hd]
    have : List.dropWhile isspace (d :: ds) = d :: ds := by
      simp [List.dropWhile, hsp]
    rw [this]
    split
    · rename_i heq
      simp only [List.cons.injEq] at heq
      exact absurd heq.1 hminus
    · rename_i heq
      simp only [List.cons.injEq] at heq
      exact absurd heq.1 hplus
    · simp [takeWhile_isDigit (d :: ds) hdig, decimalValue]

theorem wrapInt32_of_range (v : Int) (h1 : -2147483648 ≤ v) (h2 : v ≤ 2147483647) :
    wrapInt32 v = v := by
  unfold wrapInt32
  omega

theorem isPrefixOf_append (p t : String) : p.data.isPrefixOf (p ++ t).data = true :=
  List.isPrefixOf_iff_prefix.2 ⟨t.data, (String.data_append p t).symm⟩

theorem parseLoop_gpu_id (prog t : String) (o : Options) :
    parseLoop prog ["-gpu-id=" ++ t] o = ⟨0, false, { o with gpu_id := atoi t }, []⟩ := by
  rw [parseLoop_cons]
  have hp := isPrefixOf_append "-gpu-id=" t
  have hdrop : (⟨("-gpu-id=" ++ t).data.drop 8⟩ : String) = t := rfl
  simp (disch := decide) only [append_ne_of_second_char, or_self, if_false, hp, if_true, hdrop]
  rfl

theorem parseLoop_threads (prog t : String) (o : Options) :
    parseLoop prog ["-threads=" ++ t] o = ⟨0, false, { o with num_threads := atoi t }, []⟩ := by
  rw [parseLoop_cons]
  have hp := isPrefixOf_append "-threads=" t
  have hdrop : (⟨("-threads=" ++ t).data.drop 9⟩ : String) = t := rfl
  have hn := not_prefix_of_second_char "-threads=" t "-gpu-id=" (by decide)
  simp (disch := decide) only [append_ne_of_second_char, or_self, if_false, hp, if_true, hdrop,
    hn, Bool.false_eq_true]
  rfl

theorem parseLoop_onnx_provider (prog t : String) (o : Options) :
    parseLoop prog ["-onnx-provider=" ++ t] o = ⟨0, false, { o with onnx_provider := t }, []⟩ := by
  rw [parseLoop_cons]
  have hp := isPrefixOf_append "-onnx-provider=" t
  have hdrop : (⟨("-onnx-provider=" ++ t).data.drop 15⟩ : String) = t := rfl
  have hn1 := not_prefix_of_second_char "-onnx-provider=" t "-gpu-id=" (by decide)
  have hn2 := not_prefix_of_second_char "-onnx-provider=" t "-threads=" (by decide)
  simp (disch := decide) only [append_ne_of_second_char, or_self, if_false, hp, if_true, hdrop,
    hn1, hn2, Bool.false_eq_true]
  rfl

/-- When every call succeeds, `main` returns 0 and each input has its image, crop
parameters, cropped image, descriptor and result released once, and the module
state is released once. -/
theorem main_success_releases_once :
    (main fullLoader sdkAllGood ["example-mmr-API"]).code = 0 ∧
    (main fullLoader sdkAllGood ["example-mmr-API"]).trace.count Event.edfFreeEyedentify = 1 ∧
    ∀ i, i < inputs.length →
      (main fullLoader sdkAllGood ["example-mmr-API"]).trace.count
        (Event.erImageFree (some i)) = 1 ∧
      (main fullLoader sdkAllGood ["example-mmr-API"]).trace.count
        (Event.edfCropParamsFree i) = 1 ∧
      (main fullLoader sdkAllGood ["example-mmr-API"]).trace.count
        (Event.edfFreeCropImage i) = 1 ∧
      (main fullLoader sdkAllGood ["example-mmr-API"]).trace.count
        (Event.edfFreeDesc i) = 1 ∧
      (main fullLoader sdkAllGood ["example-mmr-API"]).trace.count
        (Event.edfFreeClassifyResult i) = 1 := by
  decide

/-! ## The claims on the example program -/

/-- C11: with no options (`argc <= 1`) `parse_arguments` returns 0 with `help` false,
prints nothing and leaves every option as it was; `main` then initializes the
module with task VCMMCT and crop type LP in the fast table, that is the model
`MMR_VCMMCT_FAST_2024Q2.dat`, CPU mode, GPU id 0, 1 thread and provider `cpu`. -/
theorem parse_arguments_no_options (argv : List String) (h : argv.length ≤ 1) :
    (∀ o : Options, parse_arguments argv o = ⟨0, false, o, []⟩) ∧
    (parse_arguments argv defaultOptions).options =
      ⟨true, MMRType.LP, MMRTask.VCMMCT, ERComputationMode.ER_COMPUTATION_MODE_CPU, 0, 1,
        "cpu"⟩ ∧
    selectModel (parse_arguments argv defaultOptions).options.fast_version
        (parse_arguments argv defaultOptions).options.mmr_task
        (parse_arguments argv defaultOptions).options.mmr_type
      = some "MMR_VCMMCT_FAST_2024Q2.dat" ∧
    ∀ (L : Loader) (S : Sdk), (linkLibrary L S).2 = none →
      Event.edfInitEyedentify
          ⟨"../../sdk/modules/edftf2lite/", some "MMR_VCMMCT_FAST_2024Q2.dat",
            ERComputationMode.ER_COMPUTATION_MODE_CPU, 0, 1, "cpu"⟩
        ∈ (main L S argv).trace := by
  have hp : ∀ o : Options, parse_arguments argv o = ⟨0, false, o, []⟩ := by
    intro o
    match argv, h with
    | [], _ => rfl
    | [_], _ => rfl
  refine ⟨hp, by rw [hp]; rfl, by rw [hp]; rfl, ?_⟩
  intro L S hl
  have hcfg : setEdfInitConfig (EDF_SDK_PATH ++ "modules/" ++ EDF_MODULE_NAME ++ "/")
      (selectModel defaultOptions.fast_version defaultOptions.mmr_task defaultOptions.mmr_type)
      defaultOptions.computation_mode defaultOptions.gpu_id defaultOptions.num_threads
      defaultOptions.onnx_provider =
      ⟨"../../sdk/modules/edftf2lite/", some "MMR_VCMMCT_FAST_2024Q2.dat",
        ERComputationMode.ER_COMPUTATION_MODE_CPU, 0, 1, "cpu"⟩ := by decide
  obtain ⟨linked, hlink⟩ : ∃ linked, linkLibrary L S = (linked, none) :=
    ⟨(linkLibrary L S).1, Prod.ext rfl hl⟩
  unfold main
  simp only [hp, hlink, hcfg]
  split_ifs with h1 h2 h3
  · simp at h1
  · simp at h2
  · simp
  all_goals cases (processInputs S defaultOptions 0 inputs).2 <;> simp

/-- Witness for C11: the program name alone, and an empty argument vector. -/
theorem parse_arguments_no_options_witness :
    parse_arguments ["example-mmr-API"] defaultOptions = ⟨0, false, defaultOptions, []⟩ ∧
    parse_arguments [] defaultOptions = ⟨0, false, defaultOptions, []⟩ :=
  ⟨(parse_arguments_no_options ["example-mmr-API"] (by decide)).1 defaultOptions,
   (parse_arguments_no_options [] (by decide)).1 defaultOptions⟩

/-- C12: an argument list that holds one flag makes `parse_arguments` return 0 with
the option the help text names set and every other option as it was. -/
theorem parse_arguments_single_flag (prog : String) (o : Options) :
    parse_arguments [prog, "-vcmmgvct"] o = ⟨0, false, { o with mmr_task := MMRTask.VCMMGVCT }, []⟩ ∧
    parse_arguments [prog, "-VCMMGVCT"] o = ⟨0, false, { o with mmr_task := MMRTask.VCMMGVCT }, []⟩ ∧
    parse_arguments [prog, "-vcmmct"] o = ⟨0, false, { o with mmr_task := MMRTask.VCMMCT }, []⟩ ∧
    parse_arguments [prog, "-VCMMCT"] o = ⟨0, false, { o with mmr_task := MMRTask.VCMMCT }, []⟩ ∧
    parse_arguments [prog, "-vcmct"] o = ⟨0, false, { o with mmr_task := MMRTask.VCMCT }, []⟩ ∧
    parse_arguments [prog, "-VCMCT"] o = ⟨0, false, { o with mmr_task := MMRTask.VCMCT }, []⟩ ∧
    parse_arguments [prog, "-vcct"] o = ⟨0, false, { o with mmr_task := MMRTask.VCCT }, []⟩ ∧
    parse_arguments [prog, "-VCCT"] o = ⟨0, false, { o with mmr_task := MMRTask.VCCT }, []⟩ ∧
    parse_arguments [prog, "-lp"] o = ⟨0, false, { o with mmr_type := MMRType.LP }, []⟩ ∧
    parse_arguments [prog, "-carbox"] o = ⟨0, false, { o with mmr_type := MMRType.CARBOX }, []⟩ ∧
    parse_arguments [prog, "-fast"] o = ⟨0, false, { o with fast_version := true }, []⟩ ∧
    parse_arguments [prog, "-precise"] o = ⟨0, false, { o with fast_version := false }, []⟩ ∧
    parse_arguments [prog, "-cpu"] o =
      ⟨0, false, { o with computation_mode := ERComputationMode.ER_COMPUTATION_MODE_CPU }, []⟩ :=
  ⟨rfl, rfl, rfl, rfl, rfl, rfl, rfl, rfl, rfl, rfl, rfl, rfl, rfl⟩

/-- C13 (as stated, refuted): `2147483648` is a decimal integer text, yet after
`-gpu-id=2147483648` the variable `gpu_id`, a 32-bit `int`, does not hold 2147483648,
and neither does `num_threads` after `-threads=2147483648`. -/
theorem parse_arguments_value_beyond_int :
    decimalText false ['2', '1', '4', '7', '4', '8', '3', '6', '4', '8'] = "2147483648" ∧
    decimalValue false ['2', '1', '4', '7', '4', '8', '3', '6', '4', '8'] = 2147483648 ∧
    (parse_arguments ["example-mmr-API", "-gpu-id=2147483648"] defaultOptions).options.gpu_id
      ≠ 2147483648 ∧
    (parse_arguments ["example-mmr-API", "-threads=2147483648"]
        defaultOptions).options.num_threads ≠ 2147483648 := by
  decide

/-- C13 (amended): for a decimal integer text whose value `N` fits a 32-bit `int`,
`-gpu-id=` followed by the text sets `gpu_id` to `N` and `-threads=` followed by the
text sets `num_threads` to `N`; `-onnx-provider=P` sets `onnx_provider` to `P` for
every text `P`; each returns 0 and leaves every other option as it was. -/
theorem parse_arguments_value_option (prog : String) (o : Options) (negative : Bool)
    (digits : List Char) (P : String)
    (hne : digits ≠ []) (hdig : ∀ c ∈ digits, c.isDigit = true)
    (hlo : -2147483648 ≤ decimalValue negative digits)
    (hhi : decimalValue negative digits ≤ 2147483647) :
    parse_arguments [prog, "-gpu-id=" ++ decimalText negative digits] o =
      ⟨0, false, { o with gpu_id := decimalValue negative digits }, []⟩ ∧
    parse_arguments [prog, "-threads=" ++ decimalText negative digits] o =
      ⟨0, false, { o with num_threads := decimalValue negative digits }, []⟩ ∧
    parse_arguments [prog, "-onnx-provider=" ++ P] o =
      ⟨0, false, { o with onnx_provider := P }, []⟩ := by
  have hv : atoi (decimalText negative digits) = decimalValue negative digits := by
    rw [atoi_decimalText negative digits hne hdig, wrapInt32_of_range _ hlo hhi]
  refine ⟨?_, ?_, ?_⟩
  · show parseLoop prog ["-gpu-id=" ++ decimalText negative digits] o = _
    rw [parseLoop_gpu_id, hv]
  · show parseLoop prog ["-threads=" ++ decimalText negative digits] o = _
    rw [parseLoop_threads, hv]
  · exact parseLoop_onnx_provider prog P o

/-- Witness for C13: the text `-1` and the empty provider. -/
theorem parse_arguments_value_option_witness :
    parse_arguments ["example-mmr-API", "-gpu-id=" ++ decimalText true ['1']] defaultOptions =
      ⟨0, false, { defaultOptions with gpu_id := decimalValue true ['1'] }, []⟩ ∧
    parse_arguments ["example-mmr-API", "-threads=" ++ decimalText true ['1']] defaultOptions =
      ⟨0, false, { defaultOptions with num_threads := decimalValue true ['1'] }, []⟩ ∧
    parse_arguments ["example-mmr-API", "-onnx-provider=" ++ ""] defaultOptions =
      ⟨0, false, { defaultOptions with onnx_provider := "" }, []⟩ :=
  parse_arguments_value_option "example-mmr-API" defaultOptions true ['1'] ""
    (by decide) (by decide) (by decide) (by decide)

/-- C14 (defect in the code): for the single option `-gpu`, `parse_arguments` returns 0
and sets the computation mode to `ER_COMPUTATION_MODE_GPU`, not to the CPU mode the
help text of the same routine announces for `-gpu`. -/
theorem parse_arguments_gpu_sets_gpu_mode :
    ∀ (prog : String) (o : Options),
      parse_arguments [prog, "-gpu"] o =
        ⟨0, false, { o with computation_mode := ERComputationMode.ER_COMPUTATION_MODE_GPU }, []⟩ ∧
      (parse_arguments [prog, "-gpu"] o).options.computation_mode
        ≠ ERComputationMode.ER_COMPUTATION_MODE_CPU := by
  intro prog o
  exact ⟨rfl, fun h => ERComputationMode.noConfusion h⟩

/-- C15: `parse_arguments` returns -1 exactly when, among the arguments after `argv[0]`,
one that has the form of no documented option comes before every `-h` and `--help`;
`main` then writes the warning and the failure message, makes no call to the loader or
the library, and returns -1. -/
theorem parse_arguments_failure (L : Loader) (S : Sdk) (argv : List String) (o : Options) :
    ((parse_arguments argv o).code = -1 ↔
      ∃ pre a post, argv.drop 1 = pre ++ a :: post ∧ matchesDocumented a = false ∧
        ∀ b ∈ pre, isHelpOption b = false) ∧
    ((parse_arguments argv defaultOptions).code = -1 →
      ∃ a, main L S argv =
        ⟨-1, [Event.printUnknownOption a (argv.headD ""),
              Event.cerr "Argument parsing failed!\n"]⟩) := by
  refine ⟨(parseLoop_code (argv.headD "") (argv.drop 1) o).1, ?_⟩
  intro h
  obtain ⟨a, ha⟩ := (parseLoop_code (argv.headD "") (argv.drop 1) defaultOptions).2 h
  refine ⟨a, ?_⟩
  have hp : (parse_arguments argv defaultOptions).printed
      = [Event.printUnknownOption a (argv.headD "")] := ha
  unfold main
  simp [h, hp]

/-- Witness for C15: an unknown argument after a flag and before `-h`. -/
theorem parse_arguments_failure_witness :
    (parse_arguments ["example-mmr-API", "-lp", "bogus", "-h"] defaultOptions).code = -1 ∧
    ∃ a, main fullLoader sdkAllGood ["example-mmr-API", "-lp", "bogus", "-h"] =
      ⟨-1, [Event.printUnknownOption a "example-mmr-API",
            Event.cerr "Argument parsing failed!\n"]⟩ :=
  ⟨(parse_arguments_failure fullLoader sdkAllGood ["example-mmr-API", "-lp", "bogus", "-h"]
      defaultOptions).1.2 ⟨["-lp"], "bogus", ["-h"], rfl, by decide, by decide⟩,
   (parse_arguments_failure fullLoader sdkAllGood ["example-mmr-API", "-lp", "bogus", "-h"]
      defaultOptions).2 (by decide)⟩

/-- C16 (defect in the code): when the classification of the first input fails, `main`
returns -1 having called `erImageFree` twice on the image of that input and never
`edfFreeDesc` on its descriptor, which `edfComputeDesc` had delivered with code 0. -/
theorem main_classify_failure_releases :
    (main fullLoader sdkClassifyFails ["example-mmr-API"]).code = -1 ∧
    (main fullLoader sdkClassifyFails ["example-mmr-API"]).trace.count
      (Event.erImageFree (some 0)) = 2 ∧
    Event.edfComputeDesc 0 ∈ (main fullLoader sdkClassifyFails ["example-mmr-API"]).trace ∧
    sdkClassifyFails.edfComputeDesc 0 = 0 ∧
    (main fullLoader sdkClassifyFails ["example-mmr-API"]).trace.count
      (Event.edfFreeDesc 0) = 0 := by
  decide

end EyedeaMMR
